import Mathlib

/-!
Shallow embedding of the queue core of the PermaVid application
(src/tauri/src/db.rs and src/tauri/src/main.rs).

The database is modelled as an in-memory list of queue rows plus a list of
settings rows; each SQL statement of db.rs becomes a pure function on those
lists.  Network calls made by main.rs (reqwest) are modelled by oracle values
describing the outcome of each call (request error / body read error /
HTTP status code plus parsed-or-unparseable body), passed in as an
environment; the functions of main.rs become pure functions of the database
state and that environment, returning the new database state together with a
record of which calls were made and which updates were performed.
All timestamp writes of one invocation are modelled with a single clock
value `now` (the Rust code calls `Utc::now()` separately for each write).
-/

namespace Permavid

/-- Queue row, as in db.rs `QueueItem` (the `queue` table). -/
structure QueueItem where
  id : Option String
  url : String
  status : String
  message : Option String
  title : Option String
  filemoon_url : Option String
  files_vc_url : Option String
  encoding_progress : Option Int
  thumbnail_url : Option String
  added_at : Option Int
  updated_at : Option Int
  local_path : Option String
deriving Repr, DecidableEq

/-- Flat settings record, as in db.rs `AppSettings`. -/
structure AppSettings where
  filemoon_api_key : Option String
  files_vc_api_key : Option String
  download_directory : Option String
  delete_after_upload : Option String
  auto_upload : Option String
  upload_target : Option String
deriving Repr, DecidableEq

/-- db.rs `get_item_by_id`: `SELECT ... FROM queue WHERE id = ?`
(`id` is the primary key, so the first match is the row). -/
def get_item_by_id (q : List QueueItem) (id : String) : Option QueueItem :=
  q.find? (fun it => it.id == some id)

/-- Semantics of `UPDATE queue SET ... WHERE id = ?`: apply `f` to every row
whose id matches (at most one, since id is the primary key). -/
def db_map_item (q : List QueueItem) (id : String) (f : QueueItem → QueueItem) :
    List QueueItem :=
  q.map (fun it => if it.id == some id then f it else it)

/-- db.rs `update_item_status`:
`UPDATE queue SET status = ?, message = ?, updated_at = ? WHERE id = ?`. -/
def update_item_status (q : List QueueItem) (id status : String)
    (message : Option String) (now : Int) : List QueueItem :=
  db_map_item q id (fun it =>
    { it with status := status, message := message, updated_at := some now })

/-- db.rs `update_item_encoding_details`:
`UPDATE queue SET status = ?, encoding_progress = ?, message = ?, updated_at = ? WHERE id = ?`. -/
def update_item_encoding_details (q : List QueueItem) (id status : String)
    (encoding_progress : Option Int) (message : Option String) (now : Int) :
    List QueueItem :=
  db_map_item q id (fun it =>
    { it with status := status, encoding_progress := encoding_progress,
              message := message, updated_at := some now })

/-- Net effect of the `get_item_by_id` / set `filemoon_url` /
`update_queue_item` sequence in `trigger_upload` (main.rs lines 640-642):
only `filemoon_url` and `updated_at` of the addressed row change. -/
def set_filemoon_url (q : List QueueItem) (id fc : String) (now : Int) :
    List QueueItem :=
  db_map_item q id (fun it => { it with filemoon_url := some fc, updated_at := some now })

/-- Net effect of the `get_item_by_id` / set `files_vc_url` /
`update_queue_item` sequence in `trigger_upload` (main.rs lines 742-744). -/
def set_files_vc_url (q : List QueueItem) (id url : String) (now : Int) :
    List QueueItem :=
  db_map_item q id (fun it => { it with files_vc_url := some url, updated_at := some now })

/-- db.rs `is_item_in_status`:
`SELECT 1 FROM queue WHERE status IN (...) LIMIT 1` (exists-check). -/
def is_item_in_status (q : List QueueItem) (statuses : List String) : Bool :=
  q.any (fun it => statuses.contains it.status)

/-- db.rs `get_next_queued_item`:
`SELECT ... WHERE status = 'queued' ORDER BY added_at ASC LIMIT 1`
(first row with the least `added_at`; `added_at` is NOT NULL in the schema,
a missing value is ordered as 0). -/
def get_next_queued_item (q : List QueueItem) : Option QueueItem :=
  (q.filter (fun it => it.status == "queued")).foldl
    (fun acc it =>
      match acc with
      | none => some it
      | some best => if it.added_at.getD 0 < best.added_at.getD 0 then some it else acc)
    none

/-- Value of a settings row: the settings table maps key to value,
key is the primary key. -/
def settings_value (rows : List (String × String)) (key : String) : Option String :=
  (rows.find? (fun r => r.1 == key)).map (fun r => r.2)

/-- db.rs `get_items_for_status_check`:
`SELECT q.id, q.filemoon_url, s.value FROM queue q JOIN settings s ON
s.key = 'filemoon_api_key' WHERE q.status IN ('transferring','encoding')
AND q.filemoon_url IS NOT NULL`.  The join yields nothing when the
`filemoon_api_key` row is absent. -/
def get_items_for_status_check (q : List QueueItem)
    (settingsRows : List (String × String)) : List (String × String × String) :=
  match settings_value settingsRows "filemoon_api_key" with
  | none => []
  | some apiKey =>
    (q.filter (fun it =>
        (it.status == "transferring" || it.status == "encoding") && it.filemoon_url.isSome)).map
      (fun it => (it.id.getD "", it.filemoon_url.getD "", apiKey))

/-- Error message for a duplicate URL whose existing row is archived
(db.rs `add_queue_item`, the `status == "encoded"` branch). -/
def already_archived_msg (url : String) : String :=
  "URL \x27" ++ url ++ "\x27 has already been archived."

/-- Error message for a duplicate URL whose existing row is still active
(db.rs `add_queue_item`, the other branch). -/
def already_in_queue_msg (url status : String) : String :=
  "URL \x27" ++ url ++ "\x27 already exists in the active queue (status: " ++ status ++ ")."

/-- db.rs `add_queue_item`: first `SELECT status FROM queue WHERE url = ? LIMIT 1`;
if a row exists the insert is rejected with one of two distinct errors,
otherwise the row is inserted (the INSERT lists every column except
`local_path`, so the stored row has no local path).  `genId` stands for the
freshly generated UUID, `now` for `Utc::now().timestamp_millis()`. -/
def add_queue_item (q : List QueueItem) (item : QueueItem) (genId : String)
    (now : Int) : Except String (List QueueItem × String) :=
  match q.find? (fun it => it.url == item.url) with
  | some existing =>
    if existing.status = "encoded" then
      .error (already_archived_msg item.url)
    else
      .error (already_in_queue_msg item.url existing.status)
  | none =>
    let id := item.id.getD genId
    .ok (q ++ [{ item with
                  id := some id,
                  added_at := some (item.added_at.getD now),
                  updated_at := some (item.updated_at.getD now),
                  local_path := none }], id)

/-- main.rs `retry_item`: look the item up; re-queue it exactly when its
status is "failed" and it has neither provider reference; otherwise reject
without touching the database.  Returns the new queue state and the command
result. -/
def retry_item (q : List QueueItem) (id : String) (now : Int) :
    List QueueItem × Except String String :=
  match get_item_by_id q id with
  | some item =>
    if item.status = "failed" ∧ item.filemoon_url = none ∧ item.files_vc_url = none then
      (update_item_status q id "queued" (some "Retrying...") now,
       .ok "Item re-queued for processing.")
    else
      (q, .error ("Item is not in a retryable failed state (status: " ++ item.status ++
        ", has_upload_url: " ++
        toString (item.filemoon_url.isSome || item.files_vc_url.isSome) ++ ")."))
  | none => (q, .error ("Retry failed: Item " ++ id ++ " not found."))

/-- main.rs `cancel_item`: look the item up; if present set status
"cancelled" with the fixed message, otherwise reject. -/
def cancel_item (q : List QueueItem) (id : String) (now : Int) :
    List QueueItem × Except String String :=
  match get_item_by_id q id with
  | some _ =>
    (update_item_status q id "cancelled" (some "Cancelled by user") now,
     .ok "Item cancelled successfully")
  | none => (q, .error ("Cancel failed: Item " ++ id ++ " not found."))

/-! ### Filename sanitization (main.rs `sanitize_filename`) -/

/-- Code points of the characters the first match arm of
`sanitize_filename` replaces: `< > : " / \ | ? *`, the fullwidth
`？`(U+FF1F) and `｜`(U+FF5C), and `# % & { } $ ! @ + =` and the
backquote (U+0060). -/
def special_char_codes : List Nat :=
  [60, 62, 58, 34, 47, 92, 124, 63, 42, 0xFF1F, 0xFF5C,
   35, 37, 38, 0x7b, 0x7d, 36, 33, 64, 43, 96, 61]

/-- Rust `char::is_control`: the Unicode Cc category, exactly
U+0000..U+001F and U+007F..U+009F. -/
def rust_is_control (c : Char) : Bool :=
  c.toNat < 0x20 || (0x7F ≤ c.toNat && c.toNat ≤ 0x9F)

/-- Rust `char::is_whitespace`: the Unicode White_Space property
(the exact code point list). -/
def rust_is_whitespace (c : Char) : Bool :=
  c.toNat ∈ ([0x09, 0x0A, 0x0B, 0x0C, 0x0D, 0x20, 0x85, 0xA0, 0x1680,
    0x2000, 0x2001, 0x2002, 0x2003, 0x2004, 0x2005, 0x2006, 0x2007,
    0x2008, 0x2009, 0x200A, 0x2028, 0x2029, 0x202F, 0x205F, 0x3000] : List Nat)

/-- Rust `char::is_alphanumeric`.  The Rust predicate is Unicode-wide;
this model uses the ASCII core.  Every property proved below is
insensitive to the extension of this predicate: a character failing it is
replaced by an underscore, a character passing it is kept and counted as
alphanumeric on both sides of the theorem. -/
def rust_is_alphanumeric (c : Char) : Bool :=
  c.isAlphanum

/-- One arm of the `.chars().map(...)` in `sanitize_filename`, in the
source's arm order. -/
def sanitize_char (c : Char) : Char :=
  if c.toNat ∈ special_char_codes then Char.ofNat 95
  else if rust_is_control c then Char.ofNat 95
  else if rust_is_alphanumeric c || c = '.' || c = '-' || c = '_' then c
  else Char.ofNat 95

/-- The predicate of the `.trim_matches(...)` call in `sanitize_filename`. -/
def sanitize_trim_pred (c : Char) : Bool :=
  rust_is_whitespace c || c == '.' || c == '_'

/-- main.rs `sanitize_filename`: map every character through
`sanitize_char`, trim matching characters from both ends, keep the first
200 characters. -/
def sanitize_filename (name : String) : String :=
  let mapped := name.data.map sanitize_char
  let trimmed :=
    ((mapped.dropWhile sanitize_trim_pred).reverse.dropWhile sanitize_trim_pred).reverse
  String.mk (trimmed.take 200)

/-! ### Provider HTTP contracts (main.rs response structs) -/

/-- main.rs `FilemoonGetUploadServerResponse`. -/
structure FilemoonGetUploadServerResponse where
  status : Nat
  msg : String
  result : String
deriving Repr, DecidableEq

/-- main.rs `FilemoonFile`. -/
structure FilemoonFile where
  filecode : String
  filename : Option String
  status : Option String
deriving Repr, DecidableEq

/-- main.rs `FilemoonUploadResponse`. -/
structure FilemoonUploadResponse where
  status : Nat
  msg : String
  files : Option (List FilemoonFile)
deriving Repr, DecidableEq

/-- main.rs `FilesVcUploadResult`. -/
structure FilesVcUploadResult where
  file_code : String
  url : String
deriving Repr, DecidableEq

/-- main.rs `FilesVcUploadResponse`. -/
structure FilesVcUploadResponse where
  status : Nat
  msg : String
  result : Option FilesVcUploadResult
deriving Repr, DecidableEq

/-- main.rs `FilemoonEncodingStatusResult`. -/
structure FilemoonEncodingStatusResult where
  file_code : String
  quality : Option String
  name : Option String
  progress : Option String
  status : String
  error : Option String
deriving Repr, DecidableEq

/-- main.rs `FilemoonEncodingStatusResponse`. -/
structure FilemoonEncodingStatusResponse where
  status : Nat
  msg : String
  result : Option FilemoonEncodingStatusResult
deriving Repr, DecidableEq

/-- main.rs `FilemoonFileInfoResult`. -/
structure FilemoonFileInfoResult where
  status : Nat
  file_code : String
  name : Option String
  canplay : Option Int
deriving Repr, DecidableEq

/-- main.rs `FilemoonFileInfoResponse`. -/
structure FilemoonFileInfoResponse where
  status : Nat
  msg : String
  result : Option (List FilemoonFileInfoResult)
deriving Repr, DecidableEq

/-- Rust `reqwest::StatusCode::is_success`: 200..=299. -/
def http_is_success (code : Nat) : Prop := 200 ≤ code ∧ code ≤ 299

instance (code : Nat) : Decidable (http_is_success code) :=
  inferInstanceAs (Decidable (200 ≤ code ∧ code ≤ 299))

instance {ε α : Type} [DecidableEq ε] [DecidableEq α] : DecidableEq (Except ε α) := fun a b =>
  match a, b with
  | .ok x, .ok y =>
    if h : x = y then isTrue (congrArg Except.ok h)
    else isFalse (fun hh => h (Except.ok.inj hh))
  | .error x, .error y =>
    if h : x = y then isTrue (congrArg Except.error h)
    else isFalse (fun hh => h (Except.error.inj hh))
  | .ok _, .error _ => isFalse (fun hh => Except.noConfusion hh)
  | .error _, .ok _ => isFalse (fun hh => Except.noConfusion hh)

/-- Oracle outcome of an HTTP call whose body is consumed with
`.json::<T>()`: the request itself may fail, otherwise an HTTP status code
is returned together with the parsed body or a parse error (a body read
failure surfaces as a parse error through `.json()`). -/
inductive JsonCall (T : Type) where
  | reqError (e : String)
  | response (code : Nat) (parsed : Except String T)
deriving Repr, DecidableEq

/-- Oracle outcome of an HTTP call whose body is first read with `.text()`
and then parsed: the request may fail, reading the body may fail, otherwise
the raw text and its parse result are available. -/
inductive TextCall (T : Type) where
  | reqError (e : String)
  | textError (code : Nat) (e : String)
  | response (code : Nat) (raw : String) (parsed : Except String T)
deriving Repr, DecidableEq

/-! ### Upload orchestrator (main.rs `trigger_upload`)

The function is split into the Filemoon phase (the block guarded by
`upload_target == "filemoon" || upload_target == "both"`) and the Files.vc
phase (guarded by `upload_target == "files_vc" || (upload_target == "both"
&& !success)`).  `Except.error` models the Rust `return Err(...)` early
returns inside a phase; `Except.ok` models falling through to the code
after the phase with the current `success` / `final_message` values.
Multipart-form construction, filename sanitization for transmission and
logging have no effect on the state and are not modelled. -/

/-- Oracle for every fallible external operation of one `trigger_upload`
call, in source order: local-file existence check, Filemoon get-upload-server
call, reading the local file into memory (`fs::read`), the Filemoon upload
POST, opening the local file for streaming (`File::open`), and the Files.vc
upload POST. -/
structure UploadEnv where
  file_exists : Bool
  fm_get_server : JsonCall FilemoonGetUploadServerResponse
  fm_read_file : Except String Unit
  fm_upload : TextCall FilemoonUploadResponse
  vc_open_file : Except String Unit
  vc_upload : JsonCall FilesVcUploadResponse
deriving Repr, DecidableEq

/-- State carried across the two provider phases: the database, the
mutable `success` and `final_message` of the Rust code, and which Filemoon
network calls were made. -/
structure UploadCont where
  db : List QueueItem
  success : Bool
  final_message : String
  fm_get_server_called : Bool
  fm_upload_called : Bool
deriving Repr, DecidableEq

/-- Data of a Rust `return Err(...)` taken inside `trigger_upload`. -/
structure UploadEarly where
  msg : String
  db : List QueueItem
  fm_get_server_called : Bool
  fm_upload_called : Bool
  vc_upload_called : Bool
deriving Repr, DecidableEq

/-- The missing-Filemoon-API-key early return (marks the item failed). -/
def fm_key_fail (q1 : List QueueItem) (id : String) (now : Int) : UploadEarly :=
  { msg := "Filemoon API key not configured",
    db := update_item_status q1 id "failed" (some "Filemoon API key not configured") now,
    fm_get_server_called := false, fm_upload_called := false, vc_upload_called := false }

/-- The non-success outcome of the Filemoon upload POST (HTTP failure,
API status other than 200, or no file in the response); the Rust message
additionally appends a Debug dump of the parsed body. -/
def fm_upload_api_error (q1 : List QueueItem) (id : String)
    (resp : FilemoonUploadResponse) (now : Int) : UploadCont :=
  let m := "Filemoon Upload API Error (Status " ++ toString resp.status ++ "): " ++ resp.msg
  { db := update_item_status q1 id "failed" (some m) now, success := false,
    final_message := m, fm_get_server_called := true, fm_upload_called := true }

/-- Step 2 of the Filemoon block: read the file (`?` propagates a read
failure without a database write), then POST to the upload server.  Every
outcome of the POST falls through (no early return). -/
def fm_upload_step (q1 : List QueueItem) (id : String) (env : UploadEnv) (now : Int) :
    Except UploadEarly UploadCont :=
  match env.fm_read_file with
  | .error e =>
    .error { msg := "Failed to read file: " ++ e, db := q1,
             fm_get_server_called := true, fm_upload_called := false,
             vc_upload_called := false }
  | .ok _ =>
    match env.fm_upload with
    | .reqError e =>
      let m := "Filemoon Upload request failed: " ++ e
      .ok { db := update_item_status q1 id "failed" (some m) now, success := false,
            final_message := m, fm_get_server_called := true, fm_upload_called := true }
    | .textError code e =>
      let m := "Failed to read Filemoon Upload response body (Status " ++
        toString code ++ "): " ++ e
      .ok { db := update_item_status q1 id "failed" (some m) now, success := false,
            final_message := m, fm_get_server_called := true, fm_upload_called := true }
    | .response code raw parsed =>
      match parsed with
      | .error e =>
        let m := "Failed to parse Filemoon Upload JSON response (Status " ++
          toString code ++ "): " ++ e ++ ". Raw Body: " ++ raw
        .ok { db := update_item_status q1 id "failed" (some m) now, success := false,
              final_message := m, fm_get_server_called := true, fm_upload_called := true }
      | .ok resp =>
        match resp.files with
        | some (f :: _) =>
          if http_is_success code ∧ resp.status = 200 then
            let fc := f.filecode
            .ok { db := set_filemoon_url
                    (update_item_status q1 id "transferring"
                      (some ("Filemoon: " ++ fc ++ ". Awaiting encoding...")) now) id fc now,
                  success := true,
                  final_message := "Upload to Filemoon successful (Filecode: " ++ fc ++
                    "). Awaiting encoding.",
                  fm_get_server_called := true, fm_upload_called := true }
          else
            .ok (fm_upload_api_error q1 id resp now)
        | _ => .ok (fm_upload_api_error q1 id resp now)

/-- Step 1 of the Filemoon block: request the upload server URL.  Every
failure is a `return Err(...)` that marks the item failed. -/
def fm_get_server_step (q1 : List QueueItem) (id : String) (env : UploadEnv) (now : Int) :
    Except UploadEarly UploadCont :=
  match env.fm_get_server with
  | .reqError e =>
    let m := "Filemoon GetServer request failed: " ++ e
    .error { msg := m, db := update_item_status q1 id "failed" (some m) now,
             fm_get_server_called := true, fm_upload_called := false,
             vc_upload_called := false }
  | .response code parsed =>
    match parsed with
    | .error e =>
      let m := "Failed to parse Filemoon GetServer response: " ++ e
      .error { msg := m, db := update_item_status q1 id "failed" (some m) now,
               fm_get_server_called := true, fm_upload_called := false,
               vc_upload_called := false }
    | .ok resp =>
      if http_is_success code ∧ resp.status = 200 ∧ resp.result ≠ "" then
        fm_upload_step q1 id env now
      else
        let m := "Filemoon GetServer API Error (Status " ++ toString resp.status ++
          "): " ++ resp.msg
        .error { msg := m, db := update_item_status q1 id "failed" (some m) now,
                 fm_get_server_called := true, fm_upload_called := false,
                 vc_upload_called := false }

/-- The Filemoon block of `trigger_upload`. -/
def fm_phase (q1 : List QueueItem) (settings : AppSettings) (id : String)
    (env : UploadEnv) (now : Int) : Except UploadEarly UploadCont :=
  let upload_target := settings.upload_target.getD "filemoon"
  if upload_target = "filemoon" ∨ upload_target = "both" then
    match settings.filemoon_api_key with
    | some key =>
      if key ≠ "" then fm_get_server_step q1 id env now
      else .error (fm_key_fail q1 id now)
    | none => .error (fm_key_fail q1 id now)
  else
    .ok { db := q1, success := false, final_message := "Upload status unknown",
          fm_get_server_called := false, fm_upload_called := false }

/-- The missing-Files.vc-API-key early return (marks the item failed). -/
def vc_key_fail (c : UploadCont) (id : String) (now : Int) : UploadEarly :=
  { msg := "Files.vc API key not configured",
    db := update_item_status c.db id "failed" (some "Files.vc API key not configured") now,
    fm_get_server_called := c.fm_get_server_called,
    fm_upload_called := c.fm_upload_called, vc_upload_called := false }

/-- The non-success outcome of the Files.vc upload POST. -/
def vc_api_error (c : UploadCont) (id : String) (resp : FilesVcUploadResponse)
    (now : Int) : UploadCont :=
  let m := "Files.vc API Error (Status " ++ toString resp.status ++ "): " ++ resp.msg
  { c with db := update_item_status c.db id "failed" (some m) now, final_message := m }

/-- The body of the Files.vc block: open the file (failure is a
`return Err(...)` that marks the item failed), then POST; every outcome of
the POST falls through. -/
def vc_upload_step (c : UploadCont) (id : String) (env : UploadEnv) (now : Int) :
    Except UploadEarly (UploadCont × Bool) :=
  match env.vc_open_file with
  | .error e =>
    let m := "Failed to open file: " ++ e
    .error { msg := m, db := update_item_status c.db id "failed" (some m) now,
             fm_get_server_called := c.fm_get_server_called,
             fm_upload_called := c.fm_upload_called, vc_upload_called := false }
  | .ok _ =>
    match env.vc_upload with
    | .reqError e =>
      let m := "Files.vc request failed: " ++ e
      let c2 : UploadCont :=
        { c with db := update_item_status c.db id "failed" (some m) now,
                 final_message := m }
      .ok (c2, true)
    | .response code parsed =>
      match parsed with
      | .error e =>
        let m := "Failed to parse Files.vc response: " ++ e
        let c2 : UploadCont :=
          { c with db := update_item_status c.db id "failed" (some m) now,
                   final_message := m }
        .ok (c2, true)
      | .ok resp =>
        match resp.result with
        | some rdata =>
          if http_is_success code ∧ resp.status = 200 then
            let c2 : UploadCont :=
              { c with
                db := set_files_vc_url
                  (update_item_status c.db id "uploaded"
                    (some ("Files.vc: " ++ rdata.url)) now) id rdata.url now,
                success := true,
                final_message := "Upload to Files.vc successful (URL: " ++
                  rdata.url ++ ")." }
            .ok (c2, true)
          else .ok (vc_api_error c id resp now, true)
        | none => .ok (vc_api_error c id resp now, true)

/-- The Files.vc block of `trigger_upload`; the returned Bool records
whether the Files.vc upload POST was made. -/
def vc_phase (c : UploadCont) (settings : AppSettings) (id : String)
    (env : UploadEnv) (now : Int) : Except UploadEarly (UploadCont × Bool) :=
  let upload_target := settings.upload_target.getD "filemoon"
  if upload_target = "files_vc" ∨ (upload_target = "both" ∧ c.success = false) then
    match settings.files_vc_api_key with
    | some key =>
      if key ≠ "" then vc_upload_step c id env now
      else .error (vc_key_fail c id now)
    | none => .error (vc_key_fail c id now)
  else .ok (c, false)

/-- The observable outcome of one `trigger_upload` call: the command
result, the final database state, which network calls were made, and
whether the local file deletion was attempted. -/
structure UploadOutcome where
  result : Except String String
  db : List QueueItem
  fm_get_server_called : Bool
  fm_upload_called : Bool
  vc_upload_called : Bool
  deleted_local_file : Bool
deriving Repr, DecidableEq

/-- main.rs `trigger_upload`: precondition checks in source order
(item exists; status "completed" or "encoded"; `local_path` set; the item
is then marked "uploading"; the file must exist on disk), then the
Filemoon and Files.vc phases, then the final success handling
(best-effort local deletion when `delete_after_upload` is "true"). -/
def trigger_upload (q : List QueueItem) (settings : AppSettings) (id : String)
    (env : UploadEnv) (now : Int) : UploadOutcome :=
  match get_item_by_id q id with
  | none =>
    { result := .error ("Upload failed: Item " ++ id ++ " not found."), db := q,
      fm_get_server_called := false, fm_upload_called := false,
      vc_upload_called := false, deleted_local_file := false }
  | some item =>
    if item.status ≠ "completed" ∧ item.status ≠ "encoded" then
      { result := .error ("Item " ++ id ++ " is not in a completed state (status: " ++
          item.status ++ "). Cannot upload."),
        db := q, fm_get_server_called := false, fm_upload_called := false,
        vc_upload_called := false, deleted_local_file := false }
    else
      match item.local_path with
      | none =>
        { result := .error "Upload failed: Local file path not found for item.",
          db := q, fm_get_server_called := false, fm_upload_called := false,
          vc_upload_called := false, deleted_local_file := false }
      | some local_path_str =>
        let q1 := update_item_status q id "uploading" (some "Starting upload...") now
        if env.file_exists = false then
          { result := .error ("Upload failed: Local file does not exist at " ++
              local_path_str),
            db := update_item_status q1 id "failed"
              (some ("Local file not found at: " ++ local_path_str)) now,
            fm_get_server_called := false, fm_upload_called := false,
            vc_upload_called := false, deleted_local_file := false }
        else
          match fm_phase q1 settings id env now with
          | .error early =>
            { result := .error early.msg, db := early.db,
              fm_get_server_called := early.fm_get_server_called,
              fm_upload_called := early.fm_upload_called,
              vc_upload_called := early.vc_upload_called,
              deleted_local_file := false }
          | .ok cont =>
            match vc_phase cont settings id env now with
            | .error early =>
              { result := .error early.msg, db := early.db,
                fm_get_server_called := early.fm_get_server_called,
                fm_upload_called := early.fm_upload_called,
                vc_upload_called := early.vc_upload_called,
                deleted_local_file := false }
            | .ok (c2, vc_called) =>
              if c2.success then
                { result := .ok c2.final_message, db := c2.db,
                  fm_get_server_called := c2.fm_get_server_called,
                  fm_upload_called := c2.fm_upload_called,
                  vc_upload_called := vc_called,
                  deleted_local_file := settings.delete_after_upload.getD "false" == "true" }
              else
                { result := .error c2.final_message, db := c2.db,
                  fm_get_server_called := c2.fm_get_server_called,
                  fm_upload_called := c2.fm_upload_called,
                  vc_upload_called := vc_called,
                  deleted_local_file := false }

/-- The Filemoon get-upload-server call succeeds in the sense of the code
(HTTP success, API status 200, non-empty result): the returned server URL. -/
def fm_get_server_ok (env : UploadEnv) : Option String :=
  match env.fm_get_server with
  | .response code (.ok resp) =>
    if http_is_success code ∧ resp.status = 200 ∧ resp.result ≠ "" then
      some resp.result
    else none
  | _ => none

/-- The Filemoon upload POST is accepted (HTTP success, API status 200,
at least one file in the response): the first returned filecode. -/
def fm_upload_ok (env : UploadEnv) : Option String :=
  match env.fm_upload with
  | .response code _raw (.ok resp) =>
    match resp.files with
    | some (f :: _) =>
      if http_is_success code ∧ resp.status = 200 then some f.filecode else none
    | _ => none
  | _ => none

/-- The Files.vc upload POST is accepted (HTTP success, API status 200,
result present): the returned file URL. -/
def vc_upload_ok (env : UploadEnv) : Option String :=
  match env.vc_upload with
  | .response code (.ok resp) =>
    match resp.result with
    | some rdata =>
      if http_is_success code ∧ resp.status = 200 then some rdata.url else none
    | none => none
  | _ => none

/-- No provider network call was made in this `trigger_upload` outcome. -/
def no_network_calls (o : UploadOutcome) : Prop :=
  o.fm_get_server_called = false ∧ o.fm_upload_called = false ∧ o.vc_upload_called = false

/-! ### Readiness poller (main.rs `check_filemoon_status`,
`check_filemoon_file_info`, `check_filemoon_readiness`) -/

/-- Rust `str::parse::<i32>()` followed by `.ok()`: optional sign, then
one or more ASCII digits (overflow of the 32-bit range, which Rust turns
into a parse error, is not modelled; no claim involves it). -/
def rust_parse_i32 (s : String) : Option Int :=
  let signed : Option (Int × List Char) :=
    match s.data with
    | [] => none
    | c :: rest =>
      if c = '+' then some (1, rest)
      else if c = '-' then some (-1, rest)
      else some (1, c :: rest)
  match signed with
  | none => none
  | some (sign, digits) =>
    if digits ≠ [] ∧ digits.all (fun d => d.isDigit) then
      some (sign * digits.foldl (fun acc d => acc * 10 + ((d.toNat : Int) - 48)) 0)
    else none

/-- ASCII uppercasing of one character (Rust `char::to_uppercase` core;
the Rust function is Unicode-wide, the provider states are ASCII). -/
def rust_char_to_uppercase (c : Char) : Char :=
  if 97 ≤ c.toNat ∧ c.toNat ≤ 122 then Char.ofNat (c.toNat - 32) else c

/-- Rust `str::to_uppercase`, modelled character-wise. -/
def rust_to_uppercase (s : String) : String :=
  String.mk (s.data.map rust_char_to_uppercase)

/-- The mapping applied by `check_filemoon_status` to the upper-cased
provider state (the `match api_status.as_str()` at main.rs lines 818-823). -/
def map_filemoon_api_status (api_status : String) : String :=
  if api_status = "ENCODING" then "encoding"
  else if api_status = "FINISHED" ∨ api_status = "ACTIVE" then "encoded"
  else if api_status = "ERROR" then "failed"
  else "transferring"

/-- Outcome of one `check_filemoon_status` call: the new database state and
whether the no-result branch spawned a `check_filemoon_file_info` task. -/
structure StatusCheckOutcome where
  db : List QueueItem
  triggered_file_info : Bool
deriving Repr, DecidableEq

/-- main.rs `check_filemoon_status`: query the `encoding/status` endpoint;
on a usable result (HTTP success, API status 200, result present) map the
upper-cased provider state to the local status and write it with the parsed
progress; with a 200 response but no result, spawn a file-info check; every
other outcome only logs (no database change).  Rust parses the progress
with `parse::<i32>().ok()`, modelled by `rust_parse_i32`. -/
def check_filemoon_status (q : List QueueItem) (item_id : String)
    (env : JsonCall FilemoonEncodingStatusResponse) (now : Int) : StatusCheckOutcome :=
  match env with
  | .reqError _ => { db := q, triggered_file_info := false }
  | .response code parsed =>
    match parsed with
    | .error _ => { db := q, triggered_file_info := false }
    | .ok resp =>
      if http_is_success code ∧ resp.status = 200 then
        match resp.result with
        | some result =>
          let api_status := rust_to_uppercase result.status
          let progress := result.progress.bind (fun p => rust_parse_i32 p)
          let message := "Filemoon status: " ++ api_status ++
            (match progress with
             | some p => " (" ++ toString p ++ "%)"
             | none => "")
          let new_db_status := map_filemoon_api_status api_status
          { db := update_item_encoding_details q item_id new_db_status progress
              (some message) now,
            triggered_file_info := false }
        | none => { db := q, triggered_file_info := true }
      else { db := q, triggered_file_info := false }

/-- main.rs `check_filemoon_file_info`: query the `file/info` endpoint;
`Ok true` when the matching entry reports status 200 and `canplay = 1`
(the item is then marked "encoded" with progress 100), `Ok false` when the
entry was found but is not ready (no database change), `Err` on every
failure (request error, body read error, parse error, HTTP or API error,
missing result array, filecode not found). -/
def check_filemoon_file_info (q : List QueueItem) (item_id filecode : String)
    (env : TextCall FilemoonFileInfoResponse) (now : Int) :
    Except String Bool × List QueueItem :=
  match env with
  | .reqError e =>
    (.error ("Filemoon file/info request failed for item " ++ item_id ++ ": " ++ e), q)
  | .textError _code e =>
    (.error ("Failed to read Filemoon file/info response body for item " ++
      item_id ++ ": " ++ e), q)
  | .response code raw parsed =>
    match parsed with
    | .error e =>
      (.error ("Failed to parse Filemoon file/info response for item " ++ item_id ++
        ": " ++ e ++ ". Raw Body: " ++ raw), q)
    | .ok resp =>
      if http_is_success code ∧ resp.status = 200 then
        match resp.result with
        | some results =>
          match results.find? (fun r => r.file_code == filecode) with
          | some file_info =>
            if file_info.status = 200 ∧ file_info.canplay = some 1 then
              (.ok true,
               update_item_encoding_details q item_id "encoded" (some 100)
                 (some "Filemoon status: Ready (canplay=1)") now)
            else (.ok false, q)
          | none =>
            (.error ("Filemoon file/info successful but filecode " ++ filecode ++
              " not found in results for item " ++ item_id ++ ". Raw: " ++ raw), q)
        | none =>
          (.error ("Filemoon file/info successful but no result array for item " ++
            item_id ++ ". Raw: " ++ raw), q)
      else
        (.error ("Filemoon file/info API Error (HTTP " ++ toString code ++
          ", API Status " ++ toString resp.status ++ "): " ++ resp.msg ++
          " for item " ++ item_id ++ ". Raw: " ++ raw), q)

/-- Outcome of one `check_filemoon_readiness` poll: the new database state,
whether the encoding-status check was called, and whether that check in turn
spawned another file-info task. -/
structure ReadinessOutcome where
  db : List QueueItem
  called_encoding_status : Bool
  triggered_file_info_again : Bool
deriving Repr, DecidableEq

/-- main.rs `check_filemoon_readiness`: run the file-info check first; on
`Ok(true)` stop, on `Ok(false)` or `Err(_)` fall back to the
encoding-status check. -/
def check_filemoon_readiness (q : List QueueItem) (item_id filecode : String)
    (fi_env : TextCall FilemoonFileInfoResponse)
    (es_env : JsonCall FilemoonEncodingStatusResponse) (now : Int) : ReadinessOutcome :=
  match check_filemoon_file_info q item_id filecode fi_env now with
  | (.ok true, q1) =>
    { db := q1, called_encoding_status := false, triggered_file_info_again := false }
  | (.ok false, q1) =>
    let o := check_filemoon_status q1 item_id es_env now
    { db := o.db, called_encoding_status := true,
      triggered_file_info_again := o.triggered_file_info }
  | (.error _, q1) =>
    let o := check_filemoon_status q1 item_id es_env now
    { db := o.db, called_encoding_status := true,
      triggered_file_info_again := o.triggered_file_info }

/-! ### Queue scheduler (main.rs `process_queue_background`, one iteration) -/

/-- Observable actions of one iteration of the background loop:
whether `get_next_queued_item` was consulted, the item picked for download
(if any), the readiness polls dispatched, and which sleep interval follows
(`true` = the long 15s interval, `false` = the short 5s interval). -/
structure SchedulerIteration where
  queried_next_queued : Bool
  item_to_process : Option QueueItem
  readiness_dispatch : List (String × String × String)
  sleep_long : Bool
deriving Repr, DecidableEq

/-- One iteration of main.rs `process_queue_background` (decision
structure; the download execution itself is outside this model): check
whether any item is "downloading" or "uploading"; only if not, fetch the
oldest queued item; when no item was picked (because the check said busy or
nothing is queued), fetch and dispatch the readiness polls; sleep long
exactly when no download was picked and no poll was dispatched. -/
def scheduler_iteration (q : List QueueItem)
    (settingsRows : List (String × String)) : SchedulerIteration :=
  let busy := is_item_in_status q ["downloading", "uploading"]
  if busy then
    let checks := get_items_for_status_check q settingsRows
    { queried_next_queued := false, item_to_process := none,
      readiness_dispatch := checks, sleep_long := checks.isEmpty }
  else
    match get_next_queued_item q with
    | some item =>
      { queried_next_queued := true, item_to_process := some item,
        readiness_dispatch := [], sleep_long := false }
    | none =>
      let checks := get_items_for_status_check q settingsRows
      { queried_next_queued := true, item_to_process := none,
        readiness_dispatch := checks, sleep_long := checks.isEmpty }

/-! ### Derived predicates and concrete example states -/

/-- The non-terminal statuses of the state machine of the spec
("encoded" is the terminal archive status, "cancelled" the terminal
user-initiated abort; "failed" is an absorbing-but-retryable side branch,
hence not terminal). -/
def is_non_terminal_status (s : String) : Bool :=
  ["queued", "downloading", "completed", "uploading", "transferring",
   "encoding", "failed"].contains s

/-- A completed item with a resolved local path (constructor argument
order: id, url, status, message, title, filemoon_url, files_vc_url,
encoding_progress, thumbnail_url, added_at, updated_at, local_path). -/
def ex_completed : QueueItem :=
  ⟨some "a", "https://example.com/v/42", "completed", some "Download complete",
   some "T", none, none, none, none, some 1, some 1, some "/tmp/42.mp4"⟩

/-- The same row but still queued (no local path). -/
def ex_queued : QueueItem :=
  ⟨some "a", "https://example.com/v/42", "queued", none, none, none, none,
   none, none, some 1, some 1, none⟩

/-- A failed item carrying both provider references. -/
def ex_failed_refs : QueueItem :=
  ⟨some "a", "u10", "failed", none, none, some "fmref", some "vcref", none,
   none, some 1, some 1, none⟩

/-- A second, queued row with another id. -/
def ex_other : QueueItem :=
  ⟨some "b", "u11", "queued", none, none, none, none, none, none, some 2,
   some 2, none⟩

/-- A failed item with no provider reference (retryable). -/
def ex_failed_noref : QueueItem :=
  ⟨some "r", "u12", "failed", some "boom", none, none, none, none, none,
   some 1, some 1, none⟩

/-- A transferring item awaiting remote encoding. -/
def ex_transferring : QueueItem :=
  ⟨some "b", "u2", "transferring", none, none, some "fc1", none, none, none,
   some 2, some 2, none⟩

/-- A downloading item (makes the scheduler busy). -/
def ex_downloading : QueueItem :=
  ⟨some "a", "u1", "downloading", none, none, none, none, none, none, some 1,
   some 1, none⟩

/-- An archived (encoded) item. -/
def ex_encoded : QueueItem :=
  ⟨some "y", "https://example.com/v/42", "encoded", none, none, some "fc9",
   none, some 100, none, some 1, some 1, none⟩

/-- Scheduler example state: one download in flight, one item awaiting
encoding, Filemoon key configured. -/
def c1_queue : List QueueItem := [ex_downloading, ex_transferring]

/-- Scheduler example settings rows. -/
def c1_settings_rows : List (String × String) := [("filemoon_api_key", "k1")]

/-- Settings with both keys, target "filemoon". -/
def settings_fm : AppSettings := ⟨some "k1", some "k2", none, none, none, some "filemoon"⟩

/-- Settings with both keys, target "files_vc". -/
def settings_vc : AppSettings := ⟨some "k1", some "k2", none, none, none, some "files_vc"⟩

/-- Settings with both keys, target "both". -/
def settings_both : AppSettings := ⟨some "k1", some "k2", none, none, none, some "both"⟩

/-- A successful get-upload-server response. -/
def resp_get_server_ok : FilemoonGetUploadServerResponse := ⟨200, "OK", "https://up.example"⟩

/-- A rejected get-upload-server response (API status 400). -/
def resp_get_server_bad : FilemoonGetUploadServerResponse := ⟨400, "bad key", ""⟩

/-- An accepted Filemoon upload response with one file. -/
def resp_fm_upload_ok : FilemoonUploadResponse := ⟨200, "OK", some [⟨"fc1", none, none⟩]⟩

/-- A rejected Filemoon upload response. -/
def resp_fm_upload_bad : FilemoonUploadResponse := ⟨500, "server error", none⟩

/-- An accepted Files.vc upload response. -/
def resp_vc_ok : FilesVcUploadResponse := ⟨200, "OK", some ⟨"vf1", "https://files.vc/d/vf1"⟩⟩

/-- Upload environment in which every external operation succeeds. -/
def env_all_ok : UploadEnv :=
  ⟨true, .response 200 (.ok resp_get_server_ok), .ok (),
   .response 200 "raw" (.ok resp_fm_upload_ok), .ok (),
   .response 200 (.ok resp_vc_ok)⟩

/-- As `env_all_ok` but the get-upload-server call is rejected. -/
def env_getserver_bad : UploadEnv :=
  { env_all_ok with fm_get_server := .response 200 (.ok resp_get_server_bad) }

/-- As `env_all_ok` but the Filemoon upload POST is rejected. -/
def env_fm_upload_bad : UploadEnv :=
  { env_all_ok with fm_upload := .response 200 "raw" (.ok resp_fm_upload_bad) }

/-- Encoding-status result reporting state "PENDING" at 40%. -/
def c5_result : FilemoonEncodingStatusResult := ⟨"fc1", none, none, some "40", "PENDING", none⟩

/-- Encoding-status response wrapping `c5_result`. -/
def c5_resp : FilemoonEncodingStatusResponse := ⟨200, "OK", some c5_result⟩

/-- A file-info response reporting the file ready (canplay = 1). -/
def fi_resp_ready : FilemoonFileInfoResponse := ⟨200, "OK", some [⟨200, "fc1", none, some 1⟩]⟩

/-- A file-info response reporting the file not ready (canplay = 0). -/
def fi_resp_notready : FilemoonFileInfoResponse := ⟨200, "OK", some [⟨200, "fc1", none, some 0⟩]⟩

/-- File-info call oracle: ready. -/
def fi_env_ready : TextCall FilemoonFileInfoResponse := .response 200 "raw" (.ok fi_resp_ready)

/-- File-info call oracle: checked but not ready. -/
def fi_env_notready : TextCall FilemoonFileInfoResponse := .response 200 "raw" (.ok fi_resp_notready)

/-- Encoding-status call oracle reporting "ENCODING" at 40%. -/
def es_env_encoding : JsonCall FilemoonEncodingStatusResponse :=
  .response 200 (.ok ⟨200, "OK", some ⟨"fc1", none, none, some "40", "ENCODING", none⟩⟩)

/-- As `env_all_ok` but the local file does not exist. -/
def env_no_file : UploadEnv :=
  { env_all_ok with file_exists := false }

/-! ### Helper lemmas -/

/-- Looking up the addressed id after a `WHERE id = ?` update sees the
updated row, provided the update does not change the id. -/
theorem get_item_by_id_db_map_item (q : List QueueItem) (id : String)
    (f : QueueItem → QueueItem) (hf : ∀ it, (f it).id = it.id) :
    get_item_by_id (db_map_item q id f) id = (get_item_by_id q id).map f := by
  induction q with
  | nil => rfl
  | cons a t ih =>
    by_cases h : a.id = some id
    · simp [get_item_by_id, db_map_item, List.find?_cons, h, hf]
    · simp [get_item_by_id, db_map_item, List.find?_cons, h, hf] at ih ⊢
      exact ih

theorem get_item_by_id_update_item_status (q : List QueueItem) (id status : String)
    (message : Option String) (now : Int) :
    get_item_by_id (update_item_status q id status message now) id =
      (get_item_by_id q id).map (fun it =>
        { it with status := status, message := message, updated_at := some now }) :=
  get_item_by_id_db_map_item q id _ (fun _ => rfl)

theorem get_item_by_id_update_item_encoding_details (q : List QueueItem)
    (id status : String) (progress : Option Int) (message : Option String) (now : Int) :
    get_item_by_id (update_item_encoding_details q id status progress message now) id =
      (get_item_by_id q id).map (fun it =>
        { it with status := status, encoding_progress := progress,
                  message := message, updated_at := some now }) :=
  get_item_by_id_db_map_item q id _ (fun _ => rfl)

theorem get_item_by_id_set_filemoon_url (q : List QueueItem) (id fc : String) (now : Int) :
    get_item_by_id (set_filemoon_url q id fc now) id =
      (get_item_by_id q id).map (fun it =>
        { it with filemoon_url := some fc, updated_at := some now }) :=
  get_item_by_id_db_map_item q id _ (fun _ => rfl)

theorem get_item_by_id_set_files_vc_url (q : List QueueItem) (id url : String) (now : Int) :
    get_item_by_id (set_files_vc_url q id url now) id =
      (get_item_by_id q id).map (fun it =>
        { it with files_vc_url := some url, updated_at := some now }) :=
  get_item_by_id_db_map_item q id _ (fun _ => rfl)

theorem update_item_status_length (q : List QueueItem) (id status : String)
    (message : Option String) (now : Int) :
    (update_item_status q id status message now).length = q.length := by
  simp [update_item_status, db_map_item]

/-! ### Claim theorems -/

/-- C10: `update_item_status` modifies only the status, message and
updated_at fields of the addressed row (its url, title, local_path,
filemoon_url, files_vc_url, encoding_progress and thumbnail_url are
unchanged — the record-update equality below fixes every other field),
and every row with a different id is completely unchanged.  Cancelling and
retrying go through this update, so they preserve provider references. -/
theorem C10_update_item_status_frame (q : List QueueItem) (id status : String)
    (message : Option String) (now : Int) (i : Nat) (hi : i < q.length)
    (hi2 : i < (update_item_status q id status message now).length) :
    ((q[i].id ≠ some id → (update_item_status q id status message now)[i] = q[i]) ∧
     (q[i].id = some id →
        (update_item_status q id status message now)[i] =
          { q[i] with status := status, message := message, updated_at := some now })) := by
  constructor
  · intro h
    simp [update_item_status, db_map_item, List.getElem_map, h]
  · intro h
    simp [update_item_status, db_map_item, List.getElem_map, h]

/-- C10 witness: cancelling the failed row "a" (which carries both provider
references) changes only status/message/updated_at of row 0 and leaves
row 1 untouched. -/
theorem C10_witness :
    (update_item_status [ex_failed_refs, ex_other] "a" "cancelled"
        (some "Cancelled by user") 9)[0] =
      { ex_failed_refs with
        status := "cancelled",
        message := some "Cancelled by user",
        updated_at := some 9 } ∧
    (update_item_status [ex_failed_refs, ex_other] "a" "cancelled"
        (some "Cancelled by user") 9)[1] = ex_other := by
  constructor
  · exact (C10_update_item_status_frame [ex_failed_refs, ex_other] "a" "cancelled"
      (some "Cancelled by user") 9 0 (by decide) (by decide)).2 (by decide)
  · exact (C10_update_item_status_frame [ex_failed_refs, ex_other] "a" "cancelled"
      (some "Cancelled by user") 9 1 (by decide) (by decide)).1 (by decide)

/-- C8: `retry_item` re-queues exactly the items that exist, are "failed"
and carry no provider reference; every other combination is rejected with
an error and the queue (hence the item's status) is unchanged. -/
theorem C8_retry_item (q : List QueueItem) (id : String) (now : Int) :
    ((∀ item, get_item_by_id q id = some item →
        item.status = "failed" → item.filemoon_url = none → item.files_vc_url = none →
        (retry_item q id now).2 = .ok "Item re-queued for processing." ∧
        get_item_by_id (retry_item q id now).1 id =
          some { item with
                 status := "queued",
                 message := some "Retrying...",
                 updated_at := some now }) ∧
     (∀ item, get_item_by_id q id = some item →
        ¬(item.status = "failed" ∧ item.filemoon_url = none ∧ item.files_vc_url = none) →
        (retry_item q id now).1 = q ∧ ∃ e, (retry_item q id now).2 = .error e) ∧
     (get_item_by_id q id = none →
        (retry_item q id now).1 = q ∧ ∃ e, (retry_item q id now).2 = .error e)) := by
  refine ⟨?_, ?_, ?_⟩
  · intro item hfind hst hfm hvc
    simp [retry_item, hfind, hst, hfm, hvc, get_item_by_id_update_item_status]
  · intro item hfind hcond
    simp [retry_item, hfind, hcond]
  · intro hnone
    simp [retry_item, hnone]

/-- C8 witness: the retryable failed row is re-queued; the failed row with
a Filemoon reference is rejected and the queue is unchanged. -/
theorem C8_witness :
    ((retry_item [ex_failed_noref] "r" 9).2 = .ok "Item re-queued for processing." ∧
     get_item_by_id (retry_item [ex_failed_noref] "r" 9).1 "r" =
       some { ex_failed_noref with
              status := "queued",
              message := some "Retrying...",
              updated_at := some 9 }) ∧
    ((retry_item [ex_failed_refs] "a" 9).1 = [ex_failed_refs] ∧
     ∃ e, (retry_item [ex_failed_refs] "a" 9).2 = .error e) := by
  constructor
  · exact (C8_retry_item [ex_failed_noref] "r" 9).1 ex_failed_noref rfl rfl rfl rfl
  · exact (C8_retry_item [ex_failed_refs] "a" 9).2.1 ex_failed_refs rfl (by decide)

/-- C7: adding a URL that matches an existing non-terminal row fails with
the "already exists in the active queue" error, a URL matching an archived
(encoded) row fails with the distinct "has already been archived" error,
and a URL not present is inserted (with generated id/timestamps and no
local path); the two error messages differ for every url and status. -/
theorem C7_add_queue_item (q : List QueueItem) (item : QueueItem)
    (genId : String) (now : Int) :
    ((q.find? (fun it => it.url == item.url) = none →
        add_queue_item q item genId now =
          .ok (q ++ [{ item with
                       id := some (item.id.getD genId),
                       added_at := some (item.added_at.getD now),
                       updated_at := some (item.updated_at.getD now),
                       local_path := none }], item.id.getD genId)) ∧
     (∀ ex, q.find? (fun it => it.url == item.url) = some ex →
        is_non_terminal_status ex.status = true →
        add_queue_item q item genId now =
          .error (already_in_queue_msg item.url ex.status)) ∧
     (∀ ex, q.find? (fun it => it.url == item.url) = some ex →
        ex.status = "encoded" →
        add_queue_item q item genId now = .error (already_archived_msg item.url)) ∧
     (∀ url status, already_in_queue_msg url status ≠ already_archived_msg url)) := by
  refine ⟨?_, ?_, ?_, ?_⟩
  · intro h
    simp [add_queue_item, h]
  · intro ex h hnt
    have hne : ex.status ≠ "encoded" := by
      simp [is_non_terminal_status] at hnt
      rcases hnt with h1 | h1 | h1 | h1 | h1 | h1 | h1 <;> simp [h1]
    simp [add_queue_item, h, hne]
  · intro ex h he
    simp [add_queue_item, h, he]
  · intro url status heq
    have hlen := congrArg String.length heq
    have l1 : ("URL \x27" : String).length = 5 := rfl
    have l2 : ("\x27 already exists in the active queue (status: " : String).length = 46 := rfl
    have l3 : (")." : String).length = 2 := rfl
    have l4 : ("\x27 has already been archived." : String).length = 28 := rfl
    simp only [already_in_queue_msg, already_archived_msg, String.length_append,
      l1, l2, l3, l4] at hlen
    omega

/-- C7 witness: on a queue holding an active row for "u-dup" and an
archived row for "https://example.com/v/42", adding each duplicate gives
its distinct error; a fresh URL is inserted. -/
theorem C7_witness :
    (add_queue_item [ex_encoded]
        { ex_queued with
          url := "u-new",
          id := none }
        "gid" 7 =
      .ok ([ex_encoded,
            { ex_queued with
              url := "u-new",
              id := some "gid",
              added_at := some 1,
              updated_at := some 1,
              local_path := none }], "gid")) ∧
    (add_queue_item [ex_queued] ex_completed "gid" 7 =
      .error (already_in_queue_msg "https://example.com/v/42" "queued")) ∧
    (add_queue_item [ex_encoded] ex_completed "gid" 7 =
      .error (already_archived_msg "https://example.com/v/42")) ∧
    already_in_queue_msg "https://example.com/v/42" "queued" ≠
      already_archived_msg "https://example.com/v/42" := by
  refine ⟨?_, ?_, ?_, ?_⟩
  · exact (C7_add_queue_item [ex_encoded]
      { ex_queued with
        url := "u-new",
        id := none }
      "gid" 7).1 (by decide)
  · exact (C7_add_queue_item [ex_queued] ex_completed "gid" 7).2.1 ex_queued
      (by decide) (by decide)
  · exact (C7_add_queue_item [ex_encoded] ex_completed "gid" 7).2.2.1 ex_encoded
      (by decide) (by decide)
  · exact (C7_add_queue_item [] ex_completed "gid" 7).2.2.2
      "https://example.com/v/42" "queued"

/-- Every character produced by one step of the sanitizing map is
alphanumeric or one of period, hyphen, underscore. -/
theorem sanitize_char_ok (c : Char) :
    (rust_is_alphanumeric (sanitize_char c) || sanitize_char c = '.' ||
     sanitize_char c = '-' || sanitize_char c = '_') = true := by
  unfold sanitize_char
  split_ifs with h1 h2 h3
  · decide
  · decide
  · simpa using h3
  · decide

/-- C9: for every input string the output of `sanitize_filename` is at most
200 characters long and each of its characters is alphanumeric or one of
period, hyphen, underscore. -/
theorem C9_sanitize_filename (name : String) :
    (sanitize_filename name).length ≤ 200 ∧
    ∀ c ∈ (sanitize_filename name).data,
      (rust_is_alphanumeric c || c = '.' || c = '-' || c = '_') = true := by
  constructor
  · exact List.length_take_le 200 _
  · intro c hc
    have hc1 : c ∈ (((name.data.map sanitize_char).dropWhile
        sanitize_trim_pred).reverse.dropWhile sanitize_trim_pred).reverse :=
      List.mem_of_mem_take hc
    rw [List.mem_reverse] at hc1
    have hc2 := (List.dropWhile_sublist _).subset hc1
    rw [List.mem_reverse] at hc2
    have hc3 := (List.dropWhile_sublist _).subset hc2
    obtain ⟨a, _, rfl⟩ := List.mem_map.mp hc3
    exact sanitize_char_ok a

/-- C9 witness: the theorem evaluated on a small concrete input. -/
theorem C9_witness :
    (sanitize_filename "a?b").length ≤ 200 ∧
    (rust_is_alphanumeric 'a' || 'a' = '.' || 'a' = '-' || 'a' = '_') = true :=
  ⟨(C9_sanitize_filename "a?b").1, (C9_sanitize_filename "a?b").2 'a' (by decide)⟩

/-- C1 counterexample: with item "a" downloading and item "b" transferring
(with a Filemoon reference and the API key configured), the iteration is
busy, yet it still dispatches a readiness poll for "b" — refuting "does
not dispatch any readiness-poll work before sleeping". -/
theorem C1_counterexample :
    is_item_in_status c1_queue ["downloading", "uploading"] = true ∧
    (scheduler_iteration c1_queue c1_settings_rows).readiness_dispatch =
      [("b", "fc1", "k1")] ∧
    (scheduler_iteration c1_queue c1_settings_rows).readiness_dispatch ≠ [] := by
  refine ⟨by decide, by decide, by decide⟩

/-- C1 (amended): when some item is "downloading" or "uploading", the
iteration does not consult the queued-item query and starts no download,
but it still dispatches the readiness polls for the transferring/encoding
items and sleeps long exactly when there are none. -/
theorem C1_scheduler_busy (q : List QueueItem) (rows : List (String × String))
    (h : is_item_in_status q ["downloading", "uploading"] = true) :
    (scheduler_iteration q rows).queried_next_queued = false ∧
    (scheduler_iteration q rows).item_to_process = none ∧
    (scheduler_iteration q rows).readiness_dispatch =
      get_items_for_status_check q rows ∧
    (scheduler_iteration q rows).sleep_long =
      (get_items_for_status_check q rows).isEmpty := by
  simp [scheduler_iteration, h]

/-- C1 witness: the amended theorem on the concrete busy state. -/
theorem C1_witness :
    (scheduler_iteration c1_queue c1_settings_rows).queried_next_queued = false ∧
    (scheduler_iteration c1_queue c1_settings_rows).item_to_process = none ∧
    (scheduler_iteration c1_queue c1_settings_rows).readiness_dispatch =
      get_items_for_status_check c1_queue c1_settings_rows ∧
    (scheduler_iteration c1_queue c1_settings_rows).sleep_long =
      (get_items_for_status_check c1_queue c1_settings_rows).isEmpty :=
  C1_scheduler_busy c1_queue c1_settings_rows (by decide)

/-- C5 counterexample: a usable encoding-status poll reporting "PENDING"
leaves the item in "transferring" (the claim says "PENDING" maps to
"encoding"). -/
theorem C5_counterexample :
    (check_filemoon_status [ex_transferring] "b"
        (.response 200 (.ok c5_resp)) 7).db =
      [{ ex_transferring with
         status := "transferring",
         encoding_progress := some 40,
         message := some "Filemoon status: PENDING (40%)",
         updated_at := some 7 }] ∧
    map_filemoon_api_status "PENDING" = "transferring" ∧
    ("transferring" : String) ≠ "encoding" := by
  refine ⟨by decide, by decide, by decide⟩

/-- C5 (amended): a usable encoding-status poll writes
`map_filemoon_api_status` of the upper-cased provider state, which maps
"ENCODING" to "encoding", "FINISHED"/"ACTIVE" to "encoded", "ERROR" to
"failed" and anything else — including "PENDING" — to "transferring". -/
theorem C5_encoding_status_mapping (q : List QueueItem) (item_id : String)
    (code : Nat) (resp : FilemoonEncodingStatusResponse)
    (result : FilemoonEncodingStatusResult) (now : Int)
    (hcode : http_is_success code) (hstatus : resp.status = 200)
    (hres : resp.result = some result) :
    (check_filemoon_status q item_id (.response code (.ok resp)) now).db =
      update_item_encoding_details q item_id
        (map_filemoon_api_status (rust_to_uppercase result.status))
        (result.progress.bind (fun p => rust_parse_i32 p))
        (some ("Filemoon status: " ++ rust_to_uppercase result.status ++
          (match result.progress.bind (fun p => rust_parse_i32 p) with
           | some p => " (" ++ toString p ++ "%)"
           | none => ""))) now ∧
    (rust_to_uppercase result.status = "ENCODING" →
       map_filemoon_api_status (rust_to_uppercase result.status) = "encoding") ∧
    ((rust_to_uppercase result.status = "FINISHED" ∨ rust_to_uppercase result.status = "ACTIVE") →
       map_filemoon_api_status (rust_to_uppercase result.status) = "encoded") ∧
    (rust_to_uppercase result.status = "ERROR" →
       map_filemoon_api_status (rust_to_uppercase result.status) = "failed") ∧
    (rust_to_uppercase result.status ≠ "ENCODING" → rust_to_uppercase result.status ≠ "FINISHED" →
     rust_to_uppercase result.status ≠ "ACTIVE" → rust_to_uppercase result.status ≠ "ERROR" →
       map_filemoon_api_status (rust_to_uppercase result.status) = "transferring") := by
  refine ⟨?_, ?_, ?_, ?_, ?_⟩
  · simp [check_filemoon_status, hres, hstatus, hcode]
  · intro h
    simp [map_filemoon_api_status, h]
  · intro h
    rcases h with h | h <;> simp [map_filemoon_api_status, h]
  · intro h
    simp [map_filemoon_api_status, h]
  · intro h1 h2 h3 h4
    simp [map_filemoon_api_status, h1, h2, h3, h4]

/-- C5 witness: the amended theorem on the concrete "PENDING" response. -/
theorem C5_witness :
    map_filemoon_api_status (rust_to_uppercase c5_result.status) = "transferring" :=
  (C5_encoding_status_mapping [ex_transferring] "b" 200 c5_resp c5_result 7
      (by decide) rfl rfl).2.2.2.2 (by decide) (by decide) (by decide) (by decide)

/-- When the file-info check returns `Ok(true)`, the database was updated
to "encoded" with progress 100. -/
theorem check_filemoon_file_info_ok_true (q : List QueueItem)
    (item_id filecode : String) (env : TextCall FilemoonFileInfoResponse)
    (now : Int)
    (h : (check_filemoon_file_info q item_id filecode env now).1 = .ok true) :
    (check_filemoon_file_info q item_id filecode env now).2 =
      update_item_encoding_details q item_id "encoded" (some 100)
        (some "Filemoon status: Ready (canplay=1)") now := by
  cases env with
  | reqError e => simp [check_filemoon_file_info] at h
  | textError code e => simp [check_filemoon_file_info] at h
  | response code raw parsed =>
    cases parsed with
    | error e => simp [check_filemoon_file_info] at h
    | ok resp =>
      by_cases hc : http_is_success code ∧ resp.status = 200
      · rcases hres : resp.result with _ | results
        · simp [check_filemoon_file_info, hc, hres] at h
        · rcases hfind : results.find? (fun r => r.file_code == filecode) with _ | fi
          · simp [check_filemoon_file_info, hc, hres, hfind] at h
          · by_cases hready : fi.status = 200 ∧ fi.canplay = some 1
            · simp [check_filemoon_file_info, hc, hres, hfind, hready]
            · simp [check_filemoon_file_info, hc, hres, hfind, hready] at h
      · simp [check_filemoon_file_info, hc] at h

/-- C6: when the file-info check reports the file ready to play, the item
is marked "encoded" with progress 100 and the encoding-status check is not
called; when it reports not-ready or fails in any way, the encoding-status
check is attempted in the same poll cycle. -/
theorem C6_readiness_two_tier (q : List QueueItem) (item_id filecode : String)
    (fi_env : TextCall FilemoonFileInfoResponse)
    (es_env : JsonCall FilemoonEncodingStatusResponse) (now : Int) :
    (((check_filemoon_file_info q item_id filecode fi_env now).1 = .ok true →
        (check_filemoon_readiness q item_id filecode fi_env es_env now).called_encoding_status
          = false ∧
        (check_filemoon_readiness q item_id filecode fi_env es_env now).db =
          update_item_encoding_details q item_id "encoded" (some 100)
            (some "Filemoon status: Ready (canplay=1)") now) ∧
     ((check_filemoon_file_info q item_id filecode fi_env now).1 ≠ .ok true →
        (check_filemoon_readiness q item_id filecode fi_env es_env now).called_encoding_status
          = true)) := by
  constructor
  · intro h
    have hdb := check_filemoon_file_info_ok_true q item_id filecode fi_env now h
    rcases hpair : check_filemoon_file_info q item_id filecode fi_env now with ⟨r1, q1⟩
    rw [hpair] at h hdb
    simp only at h hdb
    subst h
    simp [check_filemoon_readiness, hpair, hdb]
  · intro h
    rcases hpair : check_filemoon_file_info q item_id filecode fi_env now with ⟨r1, q1⟩
    rw [hpair] at h
    simp only at h
    match r1 with
    | .ok true => exact absurd rfl h
    | .ok false => simp [check_filemoon_readiness, hpair]
    | .error e => simp [check_filemoon_readiness, hpair]

/-- C6 witness: the theorem on a ready file-info response (no fallback
call) and on a not-ready response (fallback called). -/
theorem C6_witness :
    ((check_filemoon_readiness [ex_transferring] "b" "fc1" fi_env_ready
        es_env_encoding 7).called_encoding_status = false ∧
     (check_filemoon_readiness [ex_transferring] "b" "fc1" fi_env_ready
        es_env_encoding 7).db =
       update_item_encoding_details [ex_transferring] "b" "encoded" (some 100)
         (some "Filemoon status: Ready (canplay=1)") 7) ∧
    (check_filemoon_readiness [ex_transferring] "b" "fc1" fi_env_notready
        es_env_encoding 7).called_encoding_status = true := by
  constructor
  · exact (C6_readiness_two_tier [ex_transferring] "b" "fc1" fi_env_ready
      es_env_encoding 7).1 (by decide)
  · exact (C6_readiness_two_tier [ex_transferring] "b" "fc1" fi_env_notready
      es_env_encoding 7).2 (by decide)

/-! ### `trigger_upload` phase lemmas -/

/-- When the target includes Filemoon and the key is configured, the
Filemoon block proceeds to the get-upload-server step. -/
theorem fm_phase_enter (q1 : List QueueItem) (settings : AppSettings)
    (id : String) (env : UploadEnv) (now : Int)
    (htarget : settings.upload_target.getD "filemoon" = "filemoon" ∨
      settings.upload_target.getD "filemoon" = "both")
    (hkey : ∃ k, settings.filemoon_api_key = some k ∧ k ≠ "") :
    fm_phase q1 settings id env now = fm_get_server_step q1 id env now := by
  obtain ⟨k, hk, hk2⟩ := hkey
  unfold fm_phase
  rw [if_pos htarget, hk]
  simp [hk2]

/-- A missing or empty Filemoon key gives the key-failure early return. -/
theorem fm_phase_key_missing (q1 : List QueueItem) (settings : AppSettings)
    (id : String) (env : UploadEnv) (now : Int)
    (htarget : settings.upload_target.getD "filemoon" = "filemoon" ∨
      settings.upload_target.getD "filemoon" = "both")
    (hkey : settings.filemoon_api_key = none ∨ settings.filemoon_api_key = some "") :
    fm_phase q1 settings id env now = .error (fm_key_fail q1 id now) := by
  unfold fm_phase
  rw [if_pos htarget]
  rcases hkey with hk | hk <;> rw [hk] <;> simp

/-- With a target other than "filemoon"/"both" the Filemoon block is
skipped with the initial success/final-message values. -/
theorem fm_phase_skip (q1 : List QueueItem) (settings : AppSettings)
    (id : String) (env : UploadEnv) (now : Int)
    (htarget : ¬(settings.upload_target.getD "filemoon" = "filemoon" ∨
      settings.upload_target.getD "filemoon" = "both")) :
    fm_phase q1 settings id env now =
      .ok { db := q1, success := false, final_message := "Upload status unknown",
            fm_get_server_called := false, fm_upload_called := false } := by
  unfold fm_phase
  rw [if_neg htarget]

/-- A failed get-upload-server call is an early return that never reaches
the upload POST or Files.vc. -/
theorem fm_get_server_step_fail (q1 : List QueueItem) (id : String)
    (env : UploadEnv) (now : Int) (h : fm_get_server_ok env = none) :
    ∃ early, fm_get_server_step q1 id env now = .error early ∧
      early.fm_get_server_called = true ∧ early.fm_upload_called = false ∧
      early.vc_upload_called = false := by
  unfold fm_get_server_step
  cases henv : env.fm_get_server with
  | reqError e => exact ⟨_, rfl, rfl, rfl, rfl⟩
  | response code parsed =>
    cases parsed with
    | error e => exact ⟨_, rfl, rfl, rfl, rfl⟩
    | ok resp =>
      have hcond : ¬(http_is_success code ∧ resp.status = 200 ∧ resp.result ≠ "") := by
        intro hc
        simp [fm_get_server_ok, henv, hc] at h
      dsimp only
      rw [if_neg hcond]
      exact ⟨_, rfl, rfl, rfl, rfl⟩

/-- A successful get-upload-server call proceeds to the upload step. -/
theorem fm_get_server_step_ok (q1 : List QueueItem) (id : String)
    (env : UploadEnv) (now : Int) (url : String)
    (h : fm_get_server_ok env = some url) :
    fm_get_server_step q1 id env now = fm_upload_step q1 id env now := by
  unfold fm_get_server_step
  cases henv : env.fm_get_server with
  | reqError e => simp [fm_get_server_ok, henv] at h
  | response code parsed =>
    cases parsed with
    | error e => simp [fm_get_server_ok, henv] at h
    | ok resp =>
      have hcond : http_is_success code ∧ resp.status = 200 ∧ resp.result ≠ "" := by
        by_contra hc
        simp [fm_get_server_ok, henv, hc] at h
      dsimp only
      rw [if_pos hcond]

/-- A file read failure propagates as an early return with no database
write. -/
theorem fm_upload_step_read_fail (q1 : List QueueItem) (id : String)
    (env : UploadEnv) (now : Int) (e : String)
    (h : env.fm_read_file = .error e) :
    fm_upload_step q1 id env now =
      .error { msg := "Failed to read file: " ++ e, db := q1,
               fm_get_server_called := true, fm_upload_called := false,
               vc_upload_called := false } := by
  unfold fm_upload_step
  rw [h]

/-- An accepted Filemoon upload marks the item "transferring" and stores
the filecode. -/
theorem fm_upload_step_success (q1 : List QueueItem) (id : String)
    (env : UploadEnv) (now : Int) (fc : String)
    (hread : env.fm_read_file = .ok ())
    (h : fm_upload_ok env = some fc) :
    fm_upload_step q1 id env now =
      .ok { db := set_filemoon_url
              (update_item_status q1 id "transferring"
                (some ("Filemoon: " ++ fc ++ ". Awaiting encoding...")) now) id fc now,
            success := true,
            final_message := "Upload to Filemoon successful (Filecode: " ++ fc ++
              "). Awaiting encoding.",
            fm_get_server_called := true, fm_upload_called := true } := by
  unfold fm_upload_step
  rw [hread]
  cases henv : env.fm_upload with
  | reqError e => simp [fm_upload_ok, henv] at h
  | textError code e => simp [fm_upload_ok, henv] at h
  | response code raw parsed =>
    cases parsed with
    | error e => simp [fm_upload_ok, henv] at h
    | ok resp =>
      rcases hfiles : resp.files with _ | fls
      · simp [fm_upload_ok, henv, hfiles] at h
      · rcases fls with _ | ⟨f, fs⟩
        · simp [fm_upload_ok, henv, hfiles] at h
        · have hcond : http_is_success code ∧ resp.status = 200 := by
            by_contra hc
            simp [fm_upload_ok, henv, hfiles, hc] at h
          have hfc : f.filecode = fc := by
            simpa [fm_upload_ok, henv, hfiles, hcond] using h
          dsimp only
          simp [hfiles, hcond, hfc]

/-- A Filemoon upload POST that is not accepted falls through with
`success = false`, the database updated to "failed" with some message. -/
theorem fm_upload_step_fail (q1 : List QueueItem) (id : String)
    (env : UploadEnv) (now : Int)
    (hread : env.fm_read_file = .ok ())
    (h : fm_upload_ok env = none) :
    ∃ c m, fm_upload_step q1 id env now = .ok c ∧ c.success = false ∧
      c.fm_get_server_called = true ∧ c.fm_upload_called = true ∧
      c.db = update_item_status q1 id "failed" (some m) now := by
  unfold fm_upload_step
  rw [hread]
  cases henv : env.fm_upload with
  | reqError e => dsimp only; exact ⟨_, _, rfl, rfl, rfl, rfl, rfl⟩
  | textError code e => dsimp only; exact ⟨_, _, rfl, rfl, rfl, rfl, rfl⟩
  | response code raw parsed =>
    cases parsed with
    | error e => dsimp only; exact ⟨_, _, rfl, rfl, rfl, rfl, rfl⟩
    | ok resp =>
      rcases hfiles : resp.files with _ | fls
      · dsimp only
        rw [hfiles]
        exact ⟨_, _, rfl, rfl, rfl, rfl, rfl⟩
      · rcases fls with _ | ⟨f, fs⟩
        · dsimp only
          rw [hfiles]
          exact ⟨_, _, rfl, rfl, rfl, rfl, rfl⟩
        · have hcond : ¬(http_is_success code ∧ resp.status = 200) := by
            intro hc
            simp [fm_upload_ok, henv, hfiles, hc] at h
          dsimp only
          rw [hfiles]
          dsimp only
          rw [if_neg hcond]
          exact ⟨_, _, rfl, rfl, rfl, rfl, rfl⟩

/-- When the target routes to Files.vc and the key is configured, the
Files.vc block proceeds to the upload step. -/
theorem vc_phase_enter (c : UploadCont) (settings : AppSettings) (id : String)
    (env : UploadEnv) (now : Int)
    (htarget : settings.upload_target.getD "filemoon" = "files_vc" ∨
      (settings.upload_target.getD "filemoon" = "both" ∧ c.success = false))
    (hkey : ∃ k, settings.files_vc_api_key = some k ∧ k ≠ "") :
    vc_phase c settings id env now = vc_upload_step c id env now := by
  obtain ⟨k, hk, hk2⟩ := hkey
  unfold vc_phase
  rw [if_pos htarget, hk]
  simp [hk2]

/-- A missing or empty Files.vc key gives the key-failure early return. -/
theorem vc_phase_key_missing (c : UploadCont) (settings : AppSettings)
    (id : String) (env : UploadEnv) (now : Int)
    (htarget : settings.upload_target.getD "filemoon" = "files_vc" ∨
      (settings.upload_target.getD "filemoon" = "both" ∧ c.success = false))
    (hkey : settings.files_vc_api_key = none ∨ settings.files_vc_api_key = some "") :
    vc_phase c settings id env now = .error (vc_key_fail c id now) := by
  unfold vc_phase
  rw [if_pos htarget]
  rcases hkey with hk | hk <;> rw [hk] <;> simp

/-- When the target does not route to Files.vc (or Filemoon already
succeeded in "both" mode), the Files.vc block is skipped. -/
theorem vc_phase_skip (c : UploadCont) (settings : AppSettings) (id : String)
    (env : UploadEnv) (now : Int)
    (htarget : ¬(settings.upload_target.getD "filemoon" = "files_vc" ∨
      (settings.upload_target.getD "filemoon" = "both" ∧ c.success = false))) :
    vc_phase c settings id env now = .ok (c, false) := by
  unfold vc_phase
  rw [if_neg htarget]

/-- An accepted Files.vc upload marks the item "uploaded" and stores the
returned URL. -/
theorem vc_upload_step_success (c : UploadCont) (id : String) (env : UploadEnv)
    (now : Int) (u : String)
    (hopen : env.vc_open_file = .ok ())
    (h : vc_upload_ok env = some u) :
    vc_upload_step c id env now =
      .ok ({ c with
             db := set_files_vc_url
               (update_item_status c.db id "uploaded"
                 (some ("Files.vc: " ++ u)) now) id u now,
             success := true,
             final_message := "Upload to Files.vc successful (URL: " ++ u ++ ")." },
           true) := by
  unfold vc_upload_step
  rw [hopen]
  cases henv : env.vc_upload with
  | reqError e => simp [vc_upload_ok, henv] at h
  | response code parsed =>
    cases parsed with
    | error e => simp [vc_upload_ok, henv] at h
    | ok resp =>
      rcases hres : resp.result with _ | rdata
      · simp [vc_upload_ok, henv, hres] at h
      · have hcond : http_is_success code ∧ resp.status = 200 := by
          by_contra hc
          simp [vc_upload_ok, henv, hres, hc] at h
        have hu : rdata.url = u := by
          simpa [vc_upload_ok, henv, hres, hcond] using h
        dsimp only
        simp [hres, hcond, hu]

/-- Once the file is open, the Files.vc POST is always made and falls
through; entering with `success = false`, the resulting success flag holds
exactly when the provider accepted the upload. -/
theorem vc_upload_step_called (c : UploadCont) (id : String) (env : UploadEnv)
    (now : Int)
    (hopen : env.vc_open_file = .ok ())
    (hc : c.success = false) :
    ∃ c2, vc_upload_step c id env now = .ok (c2, true) ∧
      c2.success = (vc_upload_ok env).isSome ∧
      c2.fm_get_server_called = c.fm_get_server_called ∧
      c2.fm_upload_called = c.fm_upload_called := by
  unfold vc_upload_step
  rw [hopen]
  cases henv : env.vc_upload with
  | reqError e =>
    dsimp only
    exact ⟨_, rfl, by simp [vc_upload_ok, henv, hc], rfl, rfl⟩
  | response code parsed =>
    cases parsed with
    | error e =>
      dsimp only
      exact ⟨_, rfl, by simp [vc_upload_ok, henv, hc], rfl, rfl⟩
    | ok resp =>
      rcases hres : resp.result with _ | rdata
      · dsimp only
        rw [hres]
        exact ⟨_, rfl, by simp [vc_upload_ok, henv, hres, hc, vc_api_error], rfl, rfl⟩
      · dsimp only
        rw [hres]
        dsimp only
        by_cases hcond : http_is_success code ∧ resp.status = 200
        · rw [if_pos hcond]
          exact ⟨_, rfl, by simp [vc_upload_ok, henv, hres, hcond], rfl, rfl⟩
        · rw [if_neg hcond]
          exact ⟨_, rfl, by simp [vc_upload_ok, henv, hres, hcond, hc, vc_api_error], rfl, rfl⟩

/-- Unfolding `trigger_upload` when the preconditions pass and the
Filemoon phase takes an early return. -/
theorem trigger_upload_fm_early (q : List QueueItem) (settings : AppSettings)
    (id : String) (env : UploadEnv) (now : Int) (item : QueueItem) (p : String)
    (hfind : get_item_by_id q id = some item)
    (hstatus : item.status = "completed" ∨ item.status = "encoded")
    (hpath : item.local_path = some p)
    (hfile : env.file_exists = true)
    (early : UploadEarly)
    (hfm : fm_phase
      (update_item_status q id "uploading" (some "Starting upload...") now)
      settings id env now = .error early) :
    trigger_upload q settings id env now =
      { result := .error early.msg, db := early.db,
        fm_get_server_called := early.fm_get_server_called,
        fm_upload_called := early.fm_upload_called,
        vc_upload_called := early.vc_upload_called,
        deleted_local_file := false } := by
  have hstat2 : ¬(item.status ≠ "completed" ∧ item.status ≠ "encoded") := by
    rcases hstatus with h | h <;> simp [h]
  unfold trigger_upload
  rw [hfind]
  dsimp only
  rw [if_neg hstat2, hpath]
  dsimp only
  rw [if_neg (by simp [hfile] : ¬(env.file_exists = false))]
  rw [hfm]

/-- Unfolding `trigger_upload` when the preconditions pass, the Filemoon
phase falls through and the Files.vc phase takes an early return. -/
theorem trigger_upload_vc_early (q : List QueueItem) (settings : AppSettings)
    (id : String) (env : UploadEnv) (now : Int) (item : QueueItem) (p : String)
    (hfind : get_item_by_id q id = some item)
    (hstatus : item.status = "completed" ∨ item.status = "encoded")
    (hpath : item.local_path = some p)
    (hfile : env.file_exists = true)
    (cont : UploadCont) (early : UploadEarly)
    (hfm : fm_phase
      (update_item_status q id "uploading" (some "Starting upload...") now)
      settings id env now = .ok cont)
    (hvc : vc_phase cont settings id env now = .error early) :
    trigger_upload q settings id env now =
      { result := .error early.msg, db := early.db,
        fm_get_server_called := early.fm_get_server_called,
        fm_upload_called := early.fm_upload_called,
        vc_upload_called := early.vc_upload_called,
        deleted_local_file := false } := by
  have hstat2 : ¬(item.status ≠ "completed" ∧ item.status ≠ "encoded") := by
    rcases hstatus with h | h <;> simp [h]
  unfold trigger_upload
  rw [hfind]
  dsimp only
  rw [if_neg hstat2, hpath]
  dsimp only
  rw [if_neg (by simp [hfile] : ¬(env.file_exists = false))]
  rw [hfm]
  dsimp only
  rw [hvc]

/-- Unfolding `trigger_upload` when the preconditions pass and both phases
fall through: the final handling keys on the accumulated success flag. -/
theorem trigger_upload_phases_ok (q : List QueueItem) (settings : AppSettings)
    (id : String) (env : UploadEnv) (now : Int) (item : QueueItem) (p : String)
    (hfind : get_item_by_id q id = some item)
    (hstatus : item.status = "completed" ∨ item.status = "encoded")
    (hpath : item.local_path = some p)
    (hfile : env.file_exists = true)
    (cont c2 : UploadCont) (vc_called : Bool)
    (hfm : fm_phase
      (update_item_status q id "uploading" (some "Starting upload...") now)
      settings id env now = .ok cont)
    (hvc : vc_phase cont settings id env now = .ok (c2, vc_called)) :
    trigger_upload q settings id env now =
      if c2.success then
        { result := .ok c2.final_message, db := c2.db,
          fm_get_server_called := c2.fm_get_server_called,
          fm_upload_called := c2.fm_upload_called,
          vc_upload_called := vc_called,
          deleted_local_file := settings.delete_after_upload.getD "false" == "true" }
      else
        { result := .error c2.final_message, db := c2.db,
          fm_get_server_called := c2.fm_get_server_called,
          fm_upload_called := c2.fm_upload_called,
          vc_upload_called := vc_called,
          deleted_local_file := false } := by
  have hstat2 : ¬(item.status ≠ "completed" ∧ item.status ≠ "encoded") := by
    rcases hstatus with h | h <;> simp [h]
  unfold trigger_upload
  rw [hfind]
  dsimp only
  rw [if_neg hstat2, hpath]
  dsimp only
  rw [if_neg (by simp [hfile] : ¬(env.file_exists = false))]
  rw [hfm]
  dsimp only
  rw [hvc]

/-- C3 counterexample: triggering upload on a "queued" item is rejected
with a specific error and without any network call, but the item is NOT
transitioned to "failed" — the queue is unchanged and the item stays
"queued" (the claim requires every violation except item-not-found to mark
the item failed). -/
theorem C3_counterexample :
    (trigger_upload [ex_queued] settings_fm "a" env_all_ok 5).result =
      .error "Item a is not in a completed state (status: queued). Cannot upload." ∧
    (trigger_upload [ex_queued] settings_fm "a" env_all_ok 5).db = [ex_queued] ∧
    no_network_calls (trigger_upload [ex_queued] settings_fm "a" env_all_ok 5) ∧
    ex_queued.status = "queued" := by
  refine ⟨by decide, by decide, ⟨by decide, by decide, by decide⟩, by decide⟩

/-- C3 (amended): before any network call `trigger_upload` checks that the
item exists, that its status is "completed" or "encoded", that
`local_path` is set and the file exists, and that the first relevant
provider key is configured (Filemoon's when the target is
"filemoon"/"both", Files.vc's when it is "files_vc"); each violation
returns a specific error with no network call.  The file-missing and
API-key violations mark the item "failed"; the not-found, bad-status and
missing-local-path violations leave the queue unchanged. -/
theorem C3_upload_preconditions (q : List QueueItem) (settings : AppSettings)
    (id : String) (env : UploadEnv) (now : Int) :
    ((get_item_by_id q id = none →
        trigger_upload q settings id env now =
          { result := .error ("Upload failed: Item " ++ id ++ " not found."),
            db := q, fm_get_server_called := false, fm_upload_called := false,
            vc_upload_called := false, deleted_local_file := false }) ∧
     (∀ item, get_item_by_id q id = some item →
        item.status ≠ "completed" → item.status ≠ "encoded" →
        trigger_upload q settings id env now =
          { result := .error ("Item " ++ id ++ " is not in a completed state (status: " ++
              item.status ++ "). Cannot upload."),
            db := q, fm_get_server_called := false, fm_upload_called := false,
            vc_upload_called := false, deleted_local_file := false }) ∧
     (∀ item, get_item_by_id q id = some item →
        (item.status = "completed" ∨ item.status = "encoded") →
        item.local_path = none →
        trigger_upload q settings id env now =
          { result := .error "Upload failed: Local file path not found for item.",
            db := q, fm_get_server_called := false, fm_upload_called := false,
            vc_upload_called := false, deleted_local_file := false }) ∧
     (∀ item p, get_item_by_id q id = some item →
        (item.status = "completed" ∨ item.status = "encoded") →
        item.local_path = some p → env.file_exists = false →
        (trigger_upload q settings id env now).result =
          .error ("Upload failed: Local file does not exist at " ++ p) ∧
        no_network_calls (trigger_upload q settings id env now) ∧
        get_item_by_id (trigger_upload q settings id env now).db id =
          some { item with
                 status := "failed",
                 message := some ("Local file not found at: " ++ p),
                 updated_at := some now }) ∧
     (∀ item p, get_item_by_id q id = some item →
        (item.status = "completed" ∨ item.status = "encoded") →
        item.local_path = some p → env.file_exists = true →
        (settings.upload_target.getD "filemoon" = "filemoon" ∨
         settings.upload_target.getD "filemoon" = "both") →
        (settings.filemoon_api_key = none ∨ settings.filemoon_api_key = some "") →
        (trigger_upload q settings id env now).result =
          .error "Filemoon API key not configured" ∧
        no_network_calls (trigger_upload q settings id env now) ∧
        get_item_by_id (trigger_upload q settings id env now).db id =
          some { item with
                 status := "failed",
                 message := some "Filemoon API key not configured",
                 updated_at := some now }) ∧
     (∀ item p, get_item_by_id q id = some item →
        (item.status = "completed" ∨ item.status = "encoded") →
        item.local_path = some p → env.file_exists = true →
        settings.upload_target.getD "filemoon" = "files_vc" →
        (settings.files_vc_api_key = none ∨ settings.files_vc_api_key = some "") →
        (trigger_upload q settings id env now).result =
          .error "Files.vc API key not configured" ∧
        no_network_calls (trigger_upload q settings id env now) ∧
        get_item_by_id (trigger_upload q settings id env now).db id =
          some { item with
                 status := "failed",
                 message := some "Files.vc API key not configured",
                 updated_at := some now })) := by
  refine ⟨?_, ?_, ?_, ?_, ?_, ?_⟩
  · intro h
    unfold trigger_upload
    rw [h]
  · intro item hfind h1 h2
    unfold trigger_upload
    rw [hfind]
    dsimp only
    rw [if_pos ⟨h1, h2⟩]
  · intro item hfind hs hp
    have hstat2 : ¬(item.status ≠ "completed" ∧ item.status ≠ "encoded") := by
      rcases hs with h | h <;> simp [h]
    unfold trigger_upload
    rw [hfind]
    dsimp only
    rw [if_neg hstat2, hp]
  · intro item p hfind hs hp hfe
    have hstat2 : ¬(item.status ≠ "completed" ∧ item.status ≠ "encoded") := by
      rcases hs with h | h <;> simp [h]
    have heq : trigger_upload q settings id env now =
        { result := .error ("Upload failed: Local file does not exist at " ++ p),
          db := update_item_status
            (update_item_status q id "uploading" (some "Starting upload...") now)
            id "failed" (some ("Local file not found at: " ++ p)) now,
          fm_get_server_called := false, fm_upload_called := false,
          vc_upload_called := false, deleted_local_file := false } := by
      unfold trigger_upload
      rw [hfind]
      dsimp only
      rw [if_neg hstat2, hp]
      dsimp only
      rw [if_pos hfe]
    rw [heq]
    refine ⟨rfl, ⟨rfl, rfl, rfl⟩, ?_⟩
    rw [get_item_by_id_update_item_status, get_item_by_id_update_item_status, hfind]
    rfl
  · intro item p hfind hs hp hfe htarget hkey
    have heq := trigger_upload_fm_early q settings id env now item p hfind hs hp hfe
      _ (fm_phase_key_missing _ settings id env now htarget hkey)
    rw [heq]
    refine ⟨rfl, ⟨rfl, rfl, rfl⟩, ?_⟩
    show get_item_by_id (fm_key_fail _ id now).db id = _
    unfold fm_key_fail
    rw [get_item_by_id_update_item_status, get_item_by_id_update_item_status, hfind]
    rfl
  · intro item p hfind hs hp hfe htarget hkey
    have hnofm : ¬(settings.upload_target.getD "filemoon" = "filemoon" ∨
        settings.upload_target.getD "filemoon" = "both") := by
      simp [htarget]
    have hfm := fm_phase_skip
      (update_item_status q id "uploading" (some "Starting upload...") now)
      settings id env now hnofm
    have hvc := vc_phase_key_missing
      { db := update_item_status q id "uploading" (some "Starting upload...") now,
        success := false, final_message := "Upload status unknown",
        fm_get_server_called := false, fm_upload_called := false }
      settings id env now (Or.inl htarget) hkey
    have heq := trigger_upload_vc_early q settings id env now item p hfind hs hp hfe
      _ _ hfm hvc
    rw [heq]
    refine ⟨rfl, ⟨rfl, rfl, rfl⟩, ?_⟩
    show get_item_by_id (vc_key_fail _ id now).db id = _
    unfold vc_key_fail
    rw [get_item_by_id_update_item_status, get_item_by_id_update_item_status, hfind]
    rfl

/-- C3 witness: on a completed item whose local file is missing, the
upload is rejected without a network call and the item is marked failed. -/
theorem C3_witness :
    (trigger_upload [ex_completed] settings_fm "a" env_no_file 5).result =
      .error ("Upload failed: Local file does not exist at " ++ "/tmp/42.mp4") ∧
    no_network_calls (trigger_upload [ex_completed] settings_fm "a" env_no_file 5) ∧
    get_item_by_id (trigger_upload [ex_completed] settings_fm "a" env_no_file 5).db "a" =
      some { ex_completed with
             status := "failed",
             message := some ("Local file not found at: " ++ "/tmp/42.mp4"),
             updated_at := some 5 } :=
  (C3_upload_preconditions [ex_completed] settings_fm "a" env_no_file 5).2.2.2.1
    ex_completed "/tmp/42.mp4" rfl (Or.inl rfl) rfl rfl

/-- C4 counterexample: an upload accepted by Files.vc sets the item's
status to "uploaded", not "transferring" as the claim states (the provider
reference is persisted). -/
theorem C4_counterexample :
    (trigger_upload [ex_completed] settings_vc "a" env_all_ok 5).result =
      .ok "Upload to Files.vc successful (URL: https://files.vc/d/vf1)." ∧
    get_item_by_id (trigger_upload [ex_completed] settings_vc "a" env_all_ok 5).db "a" =
      some { ex_completed with
             status := "uploaded",
             message := some "Files.vc: https://files.vc/d/vf1",
             files_vc_url := some "https://files.vc/d/vf1",
             updated_at := some 5 } ∧
    ("uploaded" : String) ≠ "transferring" := by
  refine ⟨by decide, by decide, by decide⟩

/-- C4 (amended): an upload accepted by Filemoon sets the item to
"transferring" and persists the filecode in `filemoon_url`; an upload
accepted by Files.vc (directly targeted, or as "both"-mode fallback after
a failed Filemoon upload POST) sets the item to "uploaded" and persists
the returned URL in `files_vc_url`. -/
theorem C4_upload_success_states (q : List QueueItem) (settings : AppSettings)
    (id : String) (env : UploadEnv) (now : Int) :
    ((∀ item p url fc, get_item_by_id q id = some item →
        (item.status = "completed" ∨ item.status = "encoded") →
        item.local_path = some p → env.file_exists = true →
        (settings.upload_target.getD "filemoon" = "filemoon" ∨
         settings.upload_target.getD "filemoon" = "both") →
        (∃ k, settings.filemoon_api_key = some k ∧ k ≠ "") →
        fm_get_server_ok env = some url →
        env.fm_read_file = .ok () →
        fm_upload_ok env = some fc →
        (trigger_upload q settings id env now).result =
          .ok ("Upload to Filemoon successful (Filecode: " ++ fc ++
            "). Awaiting encoding.") ∧
        (trigger_upload q settings id env now).vc_upload_called = false ∧
        get_item_by_id (trigger_upload q settings id env now).db id =
          some { item with
                 status := "transferring",
                 message := some ("Filemoon: " ++ fc ++ ". Awaiting encoding..."),
                 filemoon_url := some fc,
                 updated_at := some now }) ∧
     (∀ item p u, get_item_by_id q id = some item →
        (item.status = "completed" ∨ item.status = "encoded") →
        item.local_path = some p → env.file_exists = true →
        settings.upload_target.getD "filemoon" = "files_vc" →
        (∃ k, settings.files_vc_api_key = some k ∧ k ≠ "") →
        env.vc_open_file = .ok () →
        vc_upload_ok env = some u →
        (trigger_upload q settings id env now).result =
          .ok ("Upload to Files.vc successful (URL: " ++ u ++ ").") ∧
        get_item_by_id (trigger_upload q settings id env now).db id =
          some { item with
                 status := "uploaded",
                 message := some ("Files.vc: " ++ u),
                 files_vc_url := some u,
                 updated_at := some now }) ∧
     (∀ item p url u, get_item_by_id q id = some item →
        (item.status = "completed" ∨ item.status = "encoded") →
        item.local_path = some p → env.file_exists = true →
        settings.upload_target.getD "filemoon" = "both" →
        (∃ k, settings.filemoon_api_key = some k ∧ k ≠ "") →
        (∃ k, settings.files_vc_api_key = some k ∧ k ≠ "") →
        fm_get_server_ok env = some url →
        env.fm_read_file = .ok () →
        fm_upload_ok env = none →
        env.vc_open_file = .ok () →
        vc_upload_ok env = some u →
        (trigger_upload q settings id env now).result =
          .ok ("Upload to Files.vc successful (URL: " ++ u ++ ").") ∧
        get_item_by_id (trigger_upload q settings id env now).db id =
          some { item with
                 status := "uploaded",
                 message := some ("Files.vc: " ++ u),
                 files_vc_url := some u,
                 updated_at := some now })) := by
  refine ⟨?_, ?_, ?_⟩
  · intro item p url fc hfind hs hp hfe htarget hkey hserver hread hfc
    have hfm : fm_phase
        (update_item_status q id "uploading" (some "Starting upload...") now)
        settings id env now =
        .ok { db := set_filemoon_url
                (update_item_status
                  (update_item_status q id "uploading" (some "Starting upload...") now)
                  id "transferring"
                  (some ("Filemoon: " ++ fc ++ ". Awaiting encoding...")) now) id fc now,
              success := true,
              final_message := "Upload to Filemoon successful (Filecode: " ++ fc ++
                "). Awaiting encoding.",
              fm_get_server_called := true, fm_upload_called := true } := by
      rw [fm_phase_enter _ settings id env now htarget hkey,
          fm_get_server_step_ok _ id env now url hserver,
          fm_upload_step_success _ id env now fc hread hfc]
    have hskip := vc_phase_skip
      { db := set_filemoon_url
          (update_item_status
            (update_item_status q id "uploading" (some "Starting upload...") now)
            id "transferring"
            (some ("Filemoon: " ++ fc ++ ". Awaiting encoding...")) now) id fc now,
        success := true,
        final_message := "Upload to Filemoon successful (Filecode: " ++ fc ++
          "). Awaiting encoding.",
        fm_get_server_called := true, fm_upload_called := true }
      settings id env now (by rcases htarget with ht | ht <;> simp [ht])
    have heq := trigger_upload_phases_ok q settings id env now item p hfind hs hp hfe
      _ _ false hfm hskip
    rw [heq]
    dsimp only
    rw [if_pos rfl]
    refine ⟨rfl, rfl, ?_⟩
    rw [get_item_by_id_set_filemoon_url, get_item_by_id_update_item_status,
        get_item_by_id_update_item_status, hfind]
    rfl
  · intro item p u hfind hs hp hfe htarget hkey hopen hu
    have hnofm : ¬(settings.upload_target.getD "filemoon" = "filemoon" ∨
        settings.upload_target.getD "filemoon" = "both") := by
      simp [htarget]
    have hfm := fm_phase_skip
      (update_item_status q id "uploading" (some "Starting upload...") now)
      settings id env now hnofm
    have hvc : vc_phase
        { db := update_item_status q id "uploading" (some "Starting upload...") now,
          success := false, final_message := "Upload status unknown",
          fm_get_server_called := false, fm_upload_called := false }
        settings id env now =
        .ok ({ db := set_files_vc_url
                 (update_item_status
                   (update_item_status q id "uploading" (some "Starting upload...") now)
                   id "uploaded" (some ("Files.vc: " ++ u)) now) id u now,
               success := true,
               final_message := "Upload to Files.vc successful (URL: " ++ u ++ ").",
               fm_get_server_called := false, fm_upload_called := false }, true) := by
      rw [vc_phase_enter _ settings id env now (Or.inl htarget) hkey,
          vc_upload_step_success _ id env now u hopen hu]
    have heq := trigger_upload_phases_ok q settings id env now item p hfind hs hp hfe
      _ _ true hfm hvc
    rw [heq]
    dsimp only
    rw [if_pos rfl]
    refine ⟨rfl, ?_⟩
    rw [get_item_by_id_set_files_vc_url, get_item_by_id_update_item_status,
        get_item_by_id_update_item_status, hfind]
    rfl
  · intro item p url u hfind hs hp hfe hboth hfmkey hvckey hserver hread hfmfail hopen hu
    obtain ⟨c, m, hstep, hsucc, hgs, hup, hdb⟩ :=
      fm_upload_step_fail
        (update_item_status q id "uploading" (some "Starting upload...") now)
        id env now hread hfmfail
    have hfm : fm_phase
        (update_item_status q id "uploading" (some "Starting upload...") now)
        settings id env now = .ok c := by
      rw [fm_phase_enter _ settings id env now (Or.inr hboth) hfmkey,
          fm_get_server_step_ok _ id env now url hserver, hstep]
    have hvc : vc_phase c settings id env now =
        .ok ({ c with
               db := set_files_vc_url
                 (update_item_status c.db id "uploaded"
                   (some ("Files.vc: " ++ u)) now) id u now,
               success := true,
               final_message := "Upload to Files.vc successful (URL: " ++ u ++ ")." },
             true) := by
      rw [vc_phase_enter c settings id env now (Or.inr ⟨hboth, hsucc⟩) hvckey,
          vc_upload_step_success c id env now u hopen hu]
    have heq := trigger_upload_phases_ok q settings id env now item p hfind hs hp hfe
      _ _ true hfm hvc
    rw [heq]
    dsimp only
    rw [if_pos rfl]
    refine ⟨rfl, ?_⟩
    rw [hdb, get_item_by_id_set_files_vc_url, get_item_by_id_update_item_status,
        get_item_by_id_update_item_status, get_item_by_id_update_item_status, hfind]
    rfl

/-- C4 witness: the amended theorem on the concrete accepted Files.vc
upload (target "files_vc"). -/
theorem C4_witness :
    (trigger_upload [ex_completed] settings_vc "a" env_all_ok 5).result =
      .ok ("Upload to Files.vc successful (URL: " ++ "https://files.vc/d/vf1" ++ ").") ∧
    get_item_by_id (trigger_upload [ex_completed] settings_vc "a" env_all_ok 5).db "a" =
      some { ex_completed with
             status := "uploaded",
             message := some ("Files.vc: " ++ "https://files.vc/d/vf1"),
             files_vc_url := some "https://files.vc/d/vf1",
             updated_at := some 5 } :=
  (C4_upload_success_states [ex_completed] settings_vc "a" env_all_ok 5).2.1
    ex_completed "/tmp/42.mp4" "https://files.vc/d/vf1" rfl (Or.inl rfl) rfl rfl rfl
    ⟨"k2", rfl, by decide⟩ rfl (by decide)

/-- C2 counterexample: with target "both" and a Files.vc environment that
would accept the upload, a Filemoon failure at the get-upload-server step
returns the error immediately — Files.vc is never attempted, refuting
"always attempts the second provider" and "success whenever at least one
succeeds". -/
theorem C2_counterexample :
    vc_upload_ok env_getserver_bad = some "https://files.vc/d/vf1" ∧
    (trigger_upload [ex_completed] settings_both "a" env_getserver_bad 5).vc_upload_called
      = false ∧
    (trigger_upload [ex_completed] settings_both "a" env_getserver_bad 5).result =
      .error "Filemoon GetServer API Error (Status 400): bad key" := by
  refine ⟨by decide, by decide, by decide⟩

/-- C2 (amended): in "both" mode (keys configured, preconditions passing,
file opening for Files.vc succeeding): a Filemoon failure at the
get-upload-server step or at reading the local file returns immediately
without attempting Files.vc; only when the Filemoon upload POST itself is
not accepted is Files.vc attempted, and then the overall result is a
success exactly when Files.vc accepts; when Filemoon accepts, the result
is a success and Files.vc is not attempted. -/
theorem C2_both_fallback (q : List QueueItem) (settings : AppSettings)
    (id : String) (env : UploadEnv) (now : Int) (item : QueueItem) (p : String)
    (hfind : get_item_by_id q id = some item)
    (hs : item.status = "completed" ∨ item.status = "encoded")
    (hp : item.local_path = some p)
    (hfe : env.file_exists = true)
    (hboth : settings.upload_target.getD "filemoon" = "both")
    (hfmkey : ∃ k, settings.filemoon_api_key = some k ∧ k ≠ "")
    (hvckey : ∃ k, settings.files_vc_api_key = some k ∧ k ≠ "")
    (hopen : env.vc_open_file = .ok ()) :
    ((fm_get_server_ok env = none →
        (trigger_upload q settings id env now).vc_upload_called = false ∧
        (trigger_upload q settings id env now).result.isOk = false) ∧
     (∀ url e, fm_get_server_ok env = some url → env.fm_read_file = .error e →
        (trigger_upload q settings id env now).vc_upload_called = false ∧
        (trigger_upload q settings id env now).result.isOk = false) ∧
     (∀ url, fm_get_server_ok env = some url → env.fm_read_file = .ok () →
        fm_upload_ok env = none →
        (trigger_upload q settings id env now).vc_upload_called = true ∧
        (trigger_upload q settings id env now).result.isOk = (vc_upload_ok env).isSome) ∧
     (∀ url fc, fm_get_server_ok env = some url → env.fm_read_file = .ok () →
        fm_upload_ok env = some fc →
        (trigger_upload q settings id env now).result.isOk = true ∧
        (trigger_upload q settings id env now).vc_upload_called = false)) := by
  refine ⟨?_, ?_, ?_, ?_⟩
  · intro h
    obtain ⟨early, hstep, hgs, hupc, hvcc⟩ :=
      fm_get_server_step_fail
        (update_item_status q id "uploading" (some "Starting upload...") now)
        id env now h
    have hfm : fm_phase
        (update_item_status q id "uploading" (some "Starting upload...") now)
        settings id env now = .error early := by
      rw [fm_phase_enter _ settings id env now (Or.inr hboth) hfmkey, hstep]
    have heq := trigger_upload_fm_early q settings id env now item p hfind hs hp hfe
      early hfm
    rw [heq]
    exact ⟨hvcc, rfl⟩
  · intro url e hserver hread
    have hfm : fm_phase
        (update_item_status q id "uploading" (some "Starting upload...") now)
        settings id env now =
        .error { msg := "Failed to read file: " ++ e,
                 db := update_item_status q id "uploading" (some "Starting upload...") now,
                 fm_get_server_called := true, fm_upload_called := false,
                 vc_upload_called := false } := by
      rw [fm_phase_enter _ settings id env now (Or.inr hboth) hfmkey,
          fm_get_server_step_ok _ id env now url hserver,
          fm_upload_step_read_fail _ id env now e hread]
    have heq := trigger_upload_fm_early q settings id env now item p hfind hs hp hfe
      _ hfm
    rw [heq]
    exact ⟨rfl, rfl⟩
  · intro url hserver hread hfmfail
    obtain ⟨c, m, hstep, hsucc, hgs, hupc, hdb⟩ :=
      fm_upload_step_fail
        (update_item_status q id "uploading" (some "Starting upload...") now)
        id env now hread hfmfail
    have hfm : fm_phase
        (update_item_status q id "uploading" (some "Starting upload...") now)
        settings id env now = .ok c := by
      rw [fm_phase_enter _ settings id env now (Or.inr hboth) hfmkey,
          fm_get_server_step_ok _ id env now url hserver, hstep]
    obtain ⟨c2, hvcstep, hsucc2, hgs2, hupc2⟩ :=
      vc_upload_step_called c id env now hopen hsucc
    have hvc : vc_phase c settings id env now = .ok (c2, true) := by
      rw [vc_phase_enter c settings id env now (Or.inr ⟨hboth, hsucc⟩) hvckey, hvcstep]
    have heq := trigger_upload_phases_ok q settings id env now item p hfind hs hp hfe
      _ _ true hfm hvc
    rw [heq]
    by_cases hs2 : c2.success = true
    · rw [if_pos hs2]
      refine ⟨rfl, ?_⟩
      rw [← hsucc2, hs2]
      rfl
    · rw [if_neg hs2]
      refine ⟨rfl, ?_⟩
      rw [← hsucc2]
      simp only [Bool.not_eq_true] at hs2
      rw [hs2]
      rfl
  · intro url fc hserver hread hfc
    have hfm : fm_phase
        (update_item_status q id "uploading" (some "Starting upload...") now)
        settings id env now =
        .ok { db := set_filemoon_url
                (update_item_status
                  (update_item_status q id "uploading" (some "Starting upload...") now)
                  id "transferring"
                  (some ("Filemoon: " ++ fc ++ ". Awaiting encoding...")) now) id fc now,
              success := true,
              final_message := "Upload to Filemoon successful (Filecode: " ++ fc ++
                "). Awaiting encoding.",
              fm_get_server_called := true, fm_upload_called := true } := by
      rw [fm_phase_enter _ settings id env now (Or.inr hboth) hfmkey,
          fm_get_server_step_ok _ id env now url hserver,
          fm_upload_step_success _ id env now fc hread hfc]
    have hskip := vc_phase_skip
      { db := set_filemoon_url
          (update_item_status
            (update_item_status q id "uploading" (some "Starting upload...") now)
            id "transferring"
            (some ("Filemoon: " ++ fc ++ ". Awaiting encoding...")) now) id fc now,
        success := true,
        final_message := "Upload to Filemoon successful (Filecode: " ++ fc ++
          "). Awaiting encoding.",
        fm_get_server_called := true, fm_upload_called := true }
      settings id env now (by simp [hboth])
    have heq := trigger_upload_phases_ok q settings id env now item p hfind hs hp hfe
      _ _ false hfm hskip
    rw [heq]
    dsimp only
    rw [if_pos rfl]
    exact ⟨rfl, rfl⟩

/-- C2 witness: the amended theorem's fallback case on a concrete "both"
state where the Filemoon upload POST is rejected and Files.vc accepts. -/
theorem C2_witness :
    (trigger_upload [ex_completed] settings_both "a" env_fm_upload_bad 5).vc_upload_called
      = true ∧
    (trigger_upload [ex_completed] settings_both "a" env_fm_upload_bad 5).result.isOk =
      (vc_upload_ok env_fm_upload_bad).isSome :=
  (C2_both_fallback [ex_completed] settings_both "a" env_fm_upload_bad 5 ex_completed
      "/tmp/42.mp4" rfl (Or.inl rfl) rfl rfl rfl ⟨"k1", rfl, by decide⟩
      ⟨"k2", rfl, by decide⟩ rfl).2.2.1 "https://up.example" (by decide) rfl (by decide)

end Permavid
